import Mathlib

/-!
Verification development for the mcpctl watch/reconciliation core
(`cli/mcpctl/commands/__init__.py`, `cli/mcpctl/commands/remediation.py`,
`cli/mcpctl/client.py`, `cli/mcpctl/cli.py`).

The Python code is shallowly embedded: JSON-decoded Python values become
the inductive `JVal` (JSON numbers appearing in these streams are integers;
floats are not modelled), dictionaries become association lists, and the
in-place mutation of the per-entity posture dictionaries becomes explicit
state passing.  Python `str`/truthiness/`==` semantics are reproduced by
`pyStr`, `truthy` and `pyEqV` (note `isinstance(x, int)` accepts booleans
in Python, and `True == 1`).
-/

namespace MCPHost

/-- A JSON-decoded Python value as produced by `json.loads`.  `jnull` doubles
as Python `None`, which `dict.get` returns for a missing key. -/
inductive JVal where
  | jnull : JVal
  | jbool : Bool → JVal
  | jint : Int → JVal
  | jstr : String → JVal
  | jlist : List JVal → JVal
  | jdict : List (String × JVal) → JVal

/-- Python `x is None`. -/
def JVal.isNone : JVal → Bool
  | .jnull => true
  | _ => false

/-- Python `x is True`. -/
def JVal.isTrue : JVal → Bool
  | .jbool true => true
  | _ => false

/-- ASCII whitespace recognised by Python's `str.strip`. -/
def isPySpace (c : Char) : Bool :=
  c == ' ' || c == '\t' || c == '\n' || c == '\r' || c == '\x0b' || c == '\x0c'

/-- Remove trailing characters satisfying `p` from a character list. -/
def dropTrail (p : Char → Bool) (l : List Char) : List Char :=
  (l.reverse.dropWhile p).reverse

/-- Python `str.strip()` (ASCII whitespace). -/
def pyStrip (s : String) : String :=
  ⟨dropTrail isPySpace (s.data.dropWhile isPySpace)⟩

/-- `pre` is a prefix of `s` (Python `str.startswith`). -/
def strStarts (s pre : String) : Bool :=
  pre.data.isPrefixOf s.data

/-- `needle.data` occurs as a contiguous run inside `hay.data`
(Python `needle in hay`). -/
def listContainsChars (needle : List Char) : List Char → Bool
  | [] => needle.isEmpty
  | c :: t => needle.isPrefixOf (c :: t) || listContainsChars needle t

/-- Python `needle in hay` for strings. -/
def strContains (hay needle : String) : Bool :=
  listContainsChars needle.data hay.data

/-- Python `str.upper()` (ASCII). -/
def strUpper (s : String) : String := ⟨s.data.map Char.toUpper⟩

/-- Python `str.lower()` (ASCII). -/
def strLower (s : String) : String := ⟨s.data.map Char.toLower⟩

/-- Python `s.replace("_", "-")` (single-character pattern). -/
def strReplaceUnderscore (s : String) : String :=
  ⟨s.data.map fun c => if c = '_' then '-' else c⟩

/-- Python truthiness of a JSON-decoded value. -/
def truthy : JVal → Bool
  | .jnull => false
  | .jbool b => b
  | .jint n => n != 0
  | .jstr s => !s.data.isEmpty
  | .jlist l => !l.isEmpty
  | .jdict d => !d.isEmpty

/-- Python `a or b`. -/
def pyOr (a b : JVal) : JVal := if truthy a then a else b

/-- First binding of `k` in an association list (Python dict lookup). -/
def alistGet? (entries : List (String × JVal)) (k : String) : Option JVal :=
  match entries with
  | [] => none
  | (k', v) :: rest => if k' = k then some v else alistGet? rest k

/-- Python `d.get(k)`: `None` when the key is absent. -/
def alistGet (entries : List (String × JVal)) (k : String) : JVal :=
  (alistGet? entries k).getD .jnull

/-- Python `d[k] = v`: replace in place, or append a new binding. -/
def alistSet (entries : List (String × JVal)) (k : String) (v : JVal) :
    List (String × JVal) :=
  match entries with
  | [] => [(k, v)]
  | (k', v') :: rest =>
      if k' = k then (k, v) :: rest else (k', v') :: alistSet rest k v

mutual

/-- Python `==` on JSON-decoded values (`True == 1`, dicts unordered). -/
def pyEqV : JVal → JVal → Bool
  | .jnull, .jnull => true
  | .jbool a, .jbool b => a == b
  | .jbool a, .jint b => (if a then (1 : Int) else 0) == b
  | .jint a, .jbool b => a == (if b then (1 : Int) else 0)
  | .jint a, .jint b => a == b
  | .jstr a, .jstr b => a == b
  | .jlist a, .jlist b => pyEqL a b
  | .jdict a, .jdict b => a.length == b.length && pyEqD a b
  | _, _ => false

/-- Elementwise Python `==` on lists. -/
def pyEqL : List JVal → List JVal → Bool
  | [], [] => true
  | x :: xs, y :: ys => pyEqV x y && pyEqL xs ys
  | _, _ => false

/-- Every binding of the first dict is matched in the second. -/
def pyEqD : List (String × JVal) → List (String × JVal) → Bool
  | [], _ => true
  | (k, v) :: xs, ys =>
      (match alistGet? ys k with
        | some w => pyEqV v w
        | none => false) && pyEqD xs ys

end

/-- Python `repr` of a string (printable characters; single quotes unless the
string holds one and no double quote). -/
def pyReprStr (s : String) : String :=
  if s.data.contains '\'' && !s.data.contains '"' then
    "\"" ++ s ++ "\""
  else
    "'" ++ ⟨s.data.foldr (fun c acc =>
      if c = '\\' then '\\' :: '\\' :: acc
      else if c = '\'' then '\\' :: '\'' :: acc
      else c :: acc) []⟩ ++ "'"

mutual

/-- Python `str()` of a JSON-decoded value. -/
def pyStr : JVal → String
  | .jnull => "None"
  | .jbool b => if b then "True" else "False"
  | .jint n => toString n
  | .jstr s => s
  | .jlist l => "[" ++ pyStrL l ++ "]"
  | .jdict d => "\x7b" ++ pyStrD d ++ "\x7d"

/-- Python `repr()` of a JSON-decoded value. -/
def pyRepr : JVal → String
  | .jstr s => pyReprStr s
  | .jnull => "None"
  | .jbool b => if b then "True" else "False"
  | .jint n => toString n
  | .jlist l => "[" ++ pyStrL l ++ "]"
  | .jdict d => "\x7b" ++ pyStrD d ++ "\x7d"

/-- Comma-joined `repr`s of list items. -/
def pyStrL : List JVal → String
  | [] => ""
  | [x] => pyRepr x
  | x :: rest => pyRepr x ++ ", " ++ pyStrL rest

/-- Comma-joined `repr: repr` renderings of dict entries. -/
def pyStrD : List (String × JVal) → String
  | [] => ""
  | [(k, v)] => pyReprStr k ++ ": " ++ pyRepr v
  | (k, v) :: rest => pyReprStr k ++ ": " ++ pyRepr v ++ ", " ++ pyStrD rest

end

/-- JSON escaping of a string for `json.dumps` (printable characters). -/
def jsonEscape (s : String) : String :=
  ⟨s.data.foldr (fun c acc =>
    if c = '\\' then '\\' :: '\\' :: acc
    else if c = '"' then '\\' :: '"' :: acc
    else c :: acc) []⟩

mutual

/-- Python `json.dumps` with default separators. -/
def jsonDumps : JVal → String
  | .jnull => "null"
  | .jbool b => if b then "true" else "false"
  | .jint n => toString n
  | .jstr s => "\"" ++ jsonEscape s ++ "\""
  | .jlist l => "[" ++ jsonDumpsL l ++ "]"
  | .jdict d => "\x7b" ++ jsonDumpsD d ++ "\x7d"

/-- Comma-joined dumps of list items. -/
def jsonDumpsL : List JVal → String
  | [] => ""
  | [x] => jsonDumps x
  | x :: rest => jsonDumps x ++ ", " ++ jsonDumpsL rest

/-- Comma-joined dumps of dict entries. -/
def jsonDumpsD : List (String × JVal) → String
  | [] => ""
  | [(k, v)] => "\"" ++ jsonEscape k ++ "\": " ++ jsonDumps v
  | (k, v) :: rest =>
      "\"" ++ jsonEscape k ++ "\": " ++ jsonDumps v ++ ", " ++ jsonDumpsD rest

end

/-! ### Policy watch reconciler (`_render_policy_event` and helpers) -/

/-- A decoded event: the Python dict produced by `json.loads`. -/
abbrev Event := List (String × JVal)

/-- Per-server posture dict (`summary` in the source). -/
abbrev Summary := List (String × JVal)

/-- The policy watch state: `Dict[int, Dict[str, Any]]`. -/
abbrev PolicyState := List (Int × Summary)

/-- Python `event.get(k)` (returns `None` when absent). -/
def eget (e : Event) (k : String) : JVal := alistGet e k

/-- Python `event.get(k, default)`. -/
def egetD (e : Event) (k : String) (d : JVal) : JVal := (alistGet? e k).getD d

/-- `isinstance(x, int)` — in Python this also accepts booleans. -/
def pyIsInt : JVal → Bool
  | .jint _ => true
  | .jbool _ => true
  | _ => false

/-- Numeric value of a Python int (booleans count as 1/0). -/
def pyIntVal : JVal → Int
  | .jint n => n
  | .jbool b => if b then 1 else 0
  | _ => 0

/-- Lookup in the policy state dict. -/
def pstateGet? (st : PolicyState) (k : Int) : Option Summary :=
  match st with
  | [] => none
  | (k', v) :: rest => if k' = k then some v else pstateGet? rest k

/-- `state[k] = v` on the policy state dict. -/
def pstateSet (st : PolicyState) (k : Int) (v : Summary) : PolicyState :=
  match st with
  | [] => [(k, v)]
  | (k', v') :: rest =>
      if k' = k then (k, v) :: rest else (k', v') :: pstateSet rest k v

def ANSI_RESET : String := "\x1b[0m"
def ANSI_GREEN : String := "\x1b[32m"
def ANSI_YELLOW : String := "\x1b[33m"
def ANSI_RED : String := "\x1b[31m"
def ANSI_CYAN : String := "\x1b[36m"

/-- `_colorize_status`: normalise then wrap in the per-status ANSI color. -/
def colorizeStatus (status : String) (useColor : Bool) : String :=
  let normalized := strLower (strReplaceUnderscore status)
  if !useColor then normalized
  else
    let color :=
      if normalized = "trusted" then ANSI_GREEN
      else if normalized = "untrusted" then ANSI_RED
      else if normalized = "unknown" then ANSI_YELLOW
      else if normalized = "pending" then ANSI_YELLOW
      else if normalized = "stale" then ANSI_YELLOW
      else ANSI_CYAN
    color ++ normalized ++ ANSI_RESET

/-- The notable-note predicate used by `_filter_signal_notes`. -/
def noteIsSignal (note : String) : Bool :=
  strStarts note "vm:attestation" || strStarts note "attestation:" ||
  strContains note "fallback" || strStarts note "provider-key:"

/-- `_filter_signal_notes`: keep string notes matching the signal predicate. -/
def filterSignalNotes : JVal → List String
  | .jlist notes =>
      notes.filterMap fun n =>
        match n with
        | .jstr s => if noteIsSignal s then some s else none
        | _ => none
  | _ => []

/-- Accumulator threaded through the field blocks: the posture dict being
mutated plus the list of change descriptions so far. -/
abbrev SC := Summary × List String

/-- `backend` block of `_render_policy_event`. -/
def pBackend (e : Event) (sc : SC) : SC :=
  match eget e "backend" with
  | .jstr backend =>
      let previous := alistGet sc.1 "backend"
      let s := alistSet sc.1 "backend" (.jstr backend)
      if previous.isNone then (s, sc.2 ++ ["backend " ++ backend])
      else if pyEqV previous (.jstr backend) then (s, sc.2)
      else (s, sc.2 ++ ["backend " ++ pyStr previous ++ " -> " ++ backend])
  | _ => sc

/-- `candidate_backend` block (context only, never diffed). -/
def pCandidate (e : Event) (sc : SC) : SC :=
  match eget e "candidate_backend" with
  | .jstr candidate => (alistSet sc.1 "candidate_backend" (.jstr candidate), sc.2)
  | _ => sc

/-- `fallback_backend` block: stored and always reported. -/
def pFallback (e : Event) (sc : SC) : SC :=
  match eget e "fallback_backend" with
  | .jstr fb =>
      (alistSet sc.1 "fallback_backend" (.jstr fb), sc.2 ++ ["fallback -> " ++ fb])
  | _ => sc

/-- First `instance_id` block: records the active instance. -/
def pInstanceEarly (e : Event) (sc : SC) : SC :=
  match eget e "instance_id" with
  | .jstr iid => (alistSet sc.1 "active_instance" (.jstr iid), sc.2)
  | _ => sc

/-- `attestation_status` block. -/
def pAttestation (e : Event) (useColor : Bool) (sc : SC) : SC :=
  match eget e "attestation_status" with
  | .jstr att =>
      let previous := alistGet sc.1 "attestation_status"
      let s := alistSet sc.1 "attestation_status" (.jstr att)
      let current := colorizeStatus att useColor
      if previous.isNone then (s, sc.2 ++ ["attestation " ++ current])
      else if pyEqV previous (.jstr att) then (s, sc.2)
      else
        (s, sc.2 ++ ["attestation " ++ current ++ " (was " ++
          colorizeStatus (pyStr previous) useColor ++ ")"])
  | _ => sc

/-- `trust_event` block: stores the event id and always reports. -/
def pTrustEvent (e : Event) (sc : SC) : SC :=
  match eget e "trust_event" with
  | .jdict te =>
      let s := alistSet sc.1 "trust_event_id" (alistGet te "id")
      let reason := pyOr (alistGet te "transition_reason") (.jstr "posture")
      let triggered := alistGet te "triggered_at"
      let descriptor := "trust " ++ pyStr reason
      let descriptor :=
        if truthy triggered then descriptor ++ " @ " ++ pyStr triggered
        else descriptor
      (s, sc.2 ++ [descriptor])
  | _ => sc

/-- Top-level `trust_event_id` block (stored when not `None`). -/
def pTrustEventId (e : Event) (sc : SC) : SC :=
  let v := eget e "trust_event_id"
  if v.isNone then sc else (alistSet sc.1 "trust_event_id" v, sc.2)

/-- `trust_lifecycle_state` block. -/
def pLifecycle (e : Event) (sc : SC) : SC :=
  match eget e "trust_lifecycle_state" with
  | .jstr ls =>
      let previous := alistGet sc.1 "trust_lifecycle_state"
      let s := alistSet sc.1 "trust_lifecycle_state" (.jstr ls)
      if previous.isNone then (s, sc.2 ++ ["trust lifecycle " ++ ls])
      else if pyEqV previous (.jstr ls) then (s, sc.2)
      else (s, sc.2 ++ ["trust lifecycle " ++ pyStr previous ++ " -> " ++ ls])
  | _ => sc

/-- `trust_previous_lifecycle_state` block (context only). -/
def pPrevLifecycle (e : Event) (sc : SC) : SC :=
  match eget e "trust_previous_lifecycle_state" with
  | .jstr pl => (alistSet sc.1 "trust_previous_lifecycle_state" (.jstr pl), sc.2)
  | _ => sc

/-- `trust_remediation_attempts` block (reported whenever first seen or
different; note `isinstance(_, int)` also accepts booleans). -/
def pRemAttempts (e : Event) (sc : SC) : SC :=
  let v := eget e "trust_remediation_attempts"
  if pyIsInt v then
    let previous := alistGet sc.1 "trust_remediation_attempts"
    let s := alistSet sc.1 "trust_remediation_attempts" v
    if previous.isNone || !pyEqV previous v then
      (s, sc.2 ++ ["trust remediation " ++ pyStr v])
    else (s, sc.2)
  else sc

/-- `freshness_expires_at or trust_freshness_deadline` block (context only). -/
def pFreshness (e : Event) (sc : SC) : SC :=
  match pyOr (eget e "freshness_expires_at") (eget e "trust_freshness_deadline") with
  | .jstr fd => (alistSet sc.1 "trust_freshness_deadline" (.jstr fd), sc.2)
  | _ => sc

/-- `trust_provenance_ref` block (context only). -/
def pProvenanceRef (e : Event) (sc : SC) : SC :=
  match eget e "trust_provenance_ref" with
  | .jstr pr => (alistSet sc.1 "trust_provenance_ref" (.jstr pr), sc.2)
  | _ => sc

/-- `trust_provenance` block (stored when not `None`). -/
def pProvenance (e : Event) (sc : SC) : SC :=
  let v := eget e "trust_provenance"
  if v.isNone then sc else (alistSet sc.1 "trust_provenance" v, sc.2)

/-- `stale` block. -/
def pStale (e : Event) (sc : SC) : SC :=
  match eget e "stale" with
  | .jbool b =>
      let previous := alistGet sc.1 "stale"
      let s := alistSet sc.1 "stale" (.jbool b)
      if previous.isNone || !pyEqV previous (.jbool b) then
        (s, sc.2 ++ ["evidence " ++ (if b then "stale" else "fresh")])
      else (s, sc.2)
  | _ => sc

/-- One iteration of the `evaluation_required`/`governance_required` loop. -/
def pEvalGov (field label : String) (e : Event) (sc : SC) : SC :=
  match eget e field with
  | .jbool value =>
      let previous := alistGet sc.1 field
      let s := alistSet sc.1 field (.jbool value)
      if previous.isNone || !pyEqV previous (.jbool value) then
        let current := if value then "required" else "clear"
        if previous.isNone then (s, sc.2 ++ [label ++ " " ++ current])
        else
          let prevLabel := if truthy previous then "required" else "clear"
          (s, sc.2 ++ [label ++ " " ++ prevLabel ++ " -> " ++ current])
      else (s, sc.2)
  | _ => sc

/-- `provider_key_posture` sub-block: the `state` value. -/
def pPkState (pk : List (String × JVal)) (sc : SC) : SC :=
  match alistGet pk "state" with
  | .jstr sv =>
      let prev := alistGet sc.1 "provider_key_state"
      let s := alistSet sc.1 "provider_key_state" (.jstr sv)
      if prev.isNone then (s, sc.2 ++ ["provider key " ++ sv])
      else if pyEqV prev (.jstr sv) then (s, sc.2)
      else (s, sc.2 ++ ["provider key " ++ pyStr prev ++ " -> " ++ sv])
  | _ => sc

/-- `provider_key_posture` sub-block: the `vetoed` flag. -/
def pPkVeto (pk : List (String × JVal)) (sc : SC) : SC :=
  match alistGet pk "vetoed" with
  | .jbool vb =>
      let prev := alistGet sc.1 "provider_key_vetoed"
      let s := alistSet sc.1 "provider_key_vetoed" (.jbool vb)
      if prev.isNone || !pyEqV prev (.jbool vb) then
        (s, sc.2 ++ ["provider key " ++ (if vb then "vetoed" else "cleared")])
      else (s, sc.2)
  | _ => sc

/-- `provider_key_posture` sub-block: `rotation_due_at` (context only). -/
def pPkRotation (pk : List (String × JVal)) (sc : SC) : SC :=
  match alistGet pk "rotation_due_at" with
  | .jstr rd => (alistSet sc.1 "provider_key_rotation_due_at" (.jstr rd), sc.2)
  | _ => sc

/-- `provider_key_posture` sub-block: the string entries of `notes`. -/
def pPkNotes (pk : List (String × JVal)) (sc : SC) : SC :=
  match alistGet pk "notes" with
  | .jlist notes =>
      (alistSet sc.1 "provider_key_notes"
        (.jlist (notes.filterMap fun n =>
          match n with
          | .jstr s => some (.jstr s)
          | _ => none)), sc.2)
  | _ => sc

/-- `provider_key_posture` sub-block: `provider_id` (context only). -/
def pPkProviderId (pk : List (String × JVal)) (sc : SC) : SC :=
  match alistGet pk "provider_id" with
  | .jstr pid => (alistSet sc.1 "provider_key_provider_id" (.jstr pid), sc.2)
  | _ => sc

/-- `provider_key_posture` block: state, veto, rotation, notes, provider id. -/
def pProviderKey (e : Event) (sc : SC) : SC :=
  match eget e "provider_key_posture" with
  | .jdict pk => pPkProviderId pk (pPkNotes pk (pPkRotation pk (pPkVeto pk (pPkState pk sc))))
  | _ => sc

/-- Second `instance_id` block (diffed). -/
def pInstance (e : Event) (sc : SC) : SC :=
  match eget e "instance_id" with
  | .jstr iid =>
      let previous := alistGet sc.1 "instance_id"
      let s := alistSet sc.1 "instance_id" (.jstr iid)
      if previous.isNone then (s, sc.2 ++ ["instance " ++ iid])
      else if pyEqV previous (.jstr iid) then (s, sc.2)
      else (s, sc.2 ++ ["instance " ++ pyStr previous ++ " -> " ++ iid])
  | _ => sc

/-- All field blocks of `_render_policy_event`, in source order, applied to
the looked-up posture dict with an empty change list. -/
def policyApplyFields (e : Event) (useColor : Bool) (summary : Summary) : SC :=
  pInstance e <| pProviderKey e <|
  pEvalGov "governance_required" "governance" e <|
  pEvalGov "evaluation_required" "evaluation" e <|
  pStale e <| pProvenance e <| pProvenanceRef e <| pFreshness e <|
  pRemAttempts e <| pPrevLifecycle e <| pLifecycle e <| pTrustEventId e <|
  pTrustEvent e <| pAttestation e useColor <| pInstanceEarly e <|
  pFallback e <| pCandidate e <| pBackend e (summary, [])

/-- Snapshot segments appended after the change list (`parts` assembly). -/
def policyParts (summary : Summary) (changes signalNotes : List String) :
    List String :=
  let parts : List String := []
  let parts := if changes.isEmpty then parts
    else parts ++ [String.intercalate "; " changes]
  let parts :=
    match alistGet summary "active_instance" with
    | .jstr ai => parts ++ ["Active instance: " ++ ai]
    | _ => parts
  let parts :=
    match alistGet summary "attestation_status" with
    | .jstr lp => parts ++ ["Latest posture: " ++ lp]
    | _ => parts
  let parts :=
    match alistGet summary "provider_key_state" with
    | .jstr pks =>
        let descriptor := "Provider key: " ++ pks
        let descriptor :=
          if (alistGet summary "provider_key_vetoed").isTrue then
            descriptor ++ " (vetoed)"
          else descriptor
        let parts := parts ++ [descriptor]
        match alistGet summary "provider_key_rotation_due_at" with
        | .jstr rd => parts ++ ["BYOK rotation due @ " ++ rd]
        | _ => parts
    | _ => parts
  if signalNotes.isEmpty then parts
  else parts ++ [String.intercalate ", " signalNotes]

/-- `_render_policy_event`: returns the rendered line (or `none`) together
with the updated watch state (the source mutates `state` in place). -/
def renderPolicyEvent (event : Event) (state : PolicyState) (useColor : Bool) :
    Option String × PolicyState :=
  let serverId := eget event "server_id"
  if !pyIsInt serverId then (none, state)
  else
    let key := pyIntVal serverId
    let timestamp := egetD event "timestamp" (.jstr "")
    let eventType := pyStr (egetD event "type" (.jstr "unknown"))
    let summary := (pstateGet? state key).getD []
    let header :=
      "[" ++ pyStr timestamp ++ "] server " ++ pyStr serverId ++ " " ++
        strUpper eventType
    let sc := policyApplyFields event useColor summary
    let state' := pstateSet state key sc.1
    let signalNotes := filterSignalNotes (eget event "notes")
    if sc.2.isEmpty && signalNotes.isEmpty then (none, state')
    else
      let parts := policyParts sc.1 sc.2 signalNotes
      (some (header ++ " " ++ String.intercalate " | " parts), state')

/-- The human-mode policy watch loop body over a list of already-decoded
events: feed each to `_render_policy_event`, printing non-empty renders. -/
def policyFeed (events : List Event) (state : PolicyState) (useColor : Bool) :
    List String × PolicyState :=
  match events with
  | [] => ([], state)
  | e :: rest =>
      let (line?, state') := renderPolicyEvent e state useColor
      let (lines, stateF) := policyFeed rest state' useColor
      (match line? with
        | some l => l :: lines
        | none => lines, stateF)

/-! ### Trust registry watch renderer (`_render_trust_event`) -/

/-- `_render_trust_event`.  The function is stateless; it returns `.ok ""`
for events without integer `server_id`/`vm_instance_id` (which the caller
does not print) and `.error ()` when the source would raise — the only
raising spot is `(event.get("server_name") or "").strip()` on a truthy
non-string `server_name`. -/
def renderTrustEvent (event : Event) : Except Unit String :=
  let serverId := eget event "server_id"
  let vmInstanceId := eget event "vm_instance_id"
  if !pyIsInt serverId || !pyIsInt vmInstanceId then .ok ""
  else
    let triggered := pyOr (eget event "triggered_at") (.jstr "unknown")
    match pyOr (eget event "server_name") (.jstr "") with
    | .jstr sn =>
        let serverName := pyStrip sn
        let status := pyOr (eget event "attestation_status") (.jstr "unknown")
        let previousStatus :=
          pyOr (eget event "previous_attestation_status") (.jstr "-")
        let lifecycle := pyOr (eget event "lifecycle_state") (.jstr "-")
        let previousLifecycle :=
          pyOr (eget event "previous_lifecycle_state") (.jstr "-")
        let remediationState := pyOr (eget event "remediation_state") (.jstr "-")
        let attempts := eget event "remediation_attempts"
        let attemptsText :=
          if pyIsInt attempts && decide (0 ≤ pyIntVal attempts) then pyStr attempts
          else "-"
        let freshnessDeadline := eget event "freshness_deadline"
        let staleFlag := truthy (eget event "stale")
        let freshnessState := if staleFlag then "stale" else "fresh"
        let freshnessState :=
          if truthy freshnessDeadline then
            freshnessState ++ " (deadline " ++ pyStr freshnessDeadline ++ ")"
          else freshnessState
        let reason := pyOr (eget event "transition_reason") (.jstr "-")
        let provenanceRef := pyOr (eget event "provenance_ref") (.jstr "-")
        let version := eget event "version"
        let versionText := if pyIsInt version then "v" ++ pyStr version else ""
        let header := "[" ++ pyStr triggered ++ "] server " ++ pyStr serverId
        let header :=
          if !serverName.data.isEmpty then header ++ " (" ++ serverName ++ ")"
          else header
        let header := header ++ " vm " ++ pyStr vmInstanceId
        let segments := [header,
          "status " ++ pyStr previousStatus ++ " -> " ++ pyStr status,
          "lifecycle " ++ pyStr previousLifecycle ++ " -> " ++ pyStr lifecycle,
          "remediation " ++ pyStr remediationState ++
            " (attempts " ++ attemptsText ++ ")",
          "freshness " ++ freshnessState]
        let segments :=
          if !pyEqV provenanceRef (.jstr "-") then
            segments ++ ["provenance " ++ pyStr provenanceRef]
          else segments
        let segments :=
          if !pyEqV reason (.jstr "-") then
            segments ++ ["reason " ++ pyStr reason]
          else segments
        let segments :=
          if !versionText.data.isEmpty then segments ++ [versionText] else segments
        .ok (String.intercalate " | "
          ((segments.map pyStrip).filter fun s => !s.data.isEmpty))
    | _ => .error ()

/-! ### Remediation watch renderer (`remediation._render_event` and helpers) -/

/-- `_AcceleratorSummary`. -/
structure AccSummary where
  acceleratorId : String
  acceleratorType : String
  posture : String
  policyFeedback : List String

/-- `_AcceleratorGateSummary`. -/
structure AccGateSummary where
  acceleratorId : String
  hooks : List String
  reasons : List String

/-- `_string_list`: keep stripped non-empty string entries of a list. -/
def stringList : JVal → List String
  | .jlist l =>
      l.filterMap fun v =>
        match v with
        | .jstr s =>
            let normalized := pyStrip s
            if normalized.data.isEmpty then none else some normalized
        | _ => none
  | _ => []

/-- `_accelerator_gate_summaries`. -/
def accGateSummaries : JVal → List AccGateSummary
  | .jlist l =>
      l.filterMap fun v =>
        match v with
        | .jdict d =>
            match alistGet d "accelerator_id" with
            | .jstr aid =>
                let hooks := stringList (alistGet d "hooks")
                let reasons := stringList (alistGet d "reasons")
                if hooks.isEmpty && reasons.isEmpty then none
                else some ⟨aid, hooks, reasons⟩
            | _ => none
        | _ => none
  | _ => []

/-- `_policy_gate_summary`. -/
def policyGateSummary (v : JVal) : List String × List AccGateSummary :=
  match v with
  | .jdict d =>
      (stringList (alistGet d "remediation_hooks"),
        accGateSummaries (alistGet d "accelerator_gates"))
  | _ => ([], [])

/-- `_accelerator_summaries`. -/
def accSummaries : JVal → List AccSummary
  | .jlist l =>
      l.filterMap fun v =>
        match v with
        | .jdict d =>
            some ⟨pyStr (pyOr (pyOr (alistGet d "accelerator_id")
                    (alistGet d "id")) (.jstr "unknown")),
                  pyStr (pyOr (pyOr (alistGet d "accelerator_type")
                    (alistGet d "kind")) (.jstr "unknown")),
                  pyStr (pyOr (alistGet d "posture") (.jstr "unknown")),
                  stringList (alistGet d "policy_feedback")⟩
        | _ => none
  | _ => []

/-- `remediation._render_event`: the list of printed lines (empty when the
identity fields are `None`/absent; the renderer keeps no state). -/
def renderRemediationEvent (event : Event) : List String :=
  let runId := eget event "run_id"
  let instanceId := eget event "instance_id"
  if runId.isNone || instanceId.isNone then []
  else
    let body := eget event "event"
    let pfx := "run " ++ pyStr runId ++ " (instance " ++ pyStr instanceId ++ ")"
    let policyFeedback := stringList (eget event "policy_feedback")
    let gates := policyGateSummary (eget event "policy_gate")
    let accelerators := accSummaries (eget event "accelerators")
    match body with
    | .jdict d =>
        if pyEqV (alistGet d "event") (.jstr "log") then
          ["[" ++ pyStr (alistGet d "timestamp") ++ "] " ++ pfx ++
            " [" ++ pyStr (alistGet d "stream") ++ "] " ++
            pyStr (alistGet d "message")]
        else if pyEqV (alistGet d "event") (.jstr "status") then
          (if !gates.1.isEmpty then
            [pfx ++ " remediation gate -> " ++ String.intercalate ", " gates.1]
          else []) ++
          gates.2.map (fun g =>
            pfx ++ " accelerator gate " ++ g.acceleratorId ++
              (if !g.hooks.isEmpty then
                " hooks=" ++ String.intercalate ", " g.hooks else "") ++
              (if !g.reasons.isEmpty then
                " reasons=" ++ String.intercalate "; " g.reasons else "")) ++
          (if !policyFeedback.isEmpty then
            [pfx ++ " policy feedback -> " ++
              String.intercalate ", " policyFeedback]
          else []) ++
          accelerators.map (fun a =>
            pfx ++ " accelerator " ++ a.acceleratorId ++
              " (" ++ a.acceleratorType ++ ") posture " ++ a.posture ++
              (if !a.policyFeedback.isEmpty then
                " notes=" ++ String.intercalate ", " a.policyFeedback else "")) ++
          [pfx ++ " status -> " ++ pyStr (alistGet d "status") ++
            " (failure " ++ pyStr (pyOr (alistGet d "failure_reason") (.jstr "-")) ++
            ") " ++ pyStr (pyOr (alistGet d "message") (.jstr ""))]
        else
          [pfx ++ " event " ++
            pyStr (pyOr (pyOr (alistGet d "event") (alistGet d "type"))
              (.jstr "unknown")) ++ ": " ++ pyStr body]
    | _ =>
        [pfx ++ " event " ++ pyStr (pyOr .jnull (.jstr "unknown")) ++ ": " ++
          pyStr body]

/-! ### SSE decoding and stream subscription (`APIClient.stream_sse`) -/

/-- The line loop body of `stream_sse`: strip the raw line, drop blanks and
`:`-comments, and for `data:` lines yield the stripped remainder. -/
def sseDecodeLine? (rawLine : String) : Option String :=
  let line := pyStrip rawLine
  if line.data.isEmpty || strStarts line ":" then none
  else if strStarts line "data:" then some (pyStrip ⟨line.data.drop 5⟩)
  else none

/-- The payload sequence produced by `stream_sse`'s line loop. -/
def sseDecode (ls : List String) : List String := ls.filterMap sseDecodeLine?

/-- The subscribe-time HTTP response: status code, the result of
`response.json()` when it parses, the raw text, and the streamed lines. -/
structure HttpResponse where
  status : Nat
  jsonBody : Option JVal
  text : String
  lines : List String

/-- Outcome of `stream_sse`: the payload list, an `APIError` carrying the
status code / message / parsed payload, or an uncaught `AttributeError`
(`payload.get("error")` on a non-dict, non-string JSON body). -/
inductive StreamResult where
  | ok (payloads : List String)
  | apiError (statusCode : Nat) (message : String) (payload : JVal)
  | typeError

/-- `payload = response.json()` falling back to `response.text`. -/
def errorPayload (r : HttpResponse) : JVal :=
  match r.jsonBody with
  | some j => j
  | none => .jstr r.text

/-- `APIClient.stream_sse` on a subscribe response. -/
def streamSse (r : HttpResponse) : StreamResult :=
  if 200 ≤ r.status ∧ r.status < 300 then .ok (sseDecode r.lines)
  else
    match errorPayload r with
    | .jstr s => .apiError r.status s (.jstr s)
    | .jdict d =>
        let v := alistGet d "error"
        .apiError r.status
          (if truthy v then pyStr v else jsonDumps (.jdict d)) (.jdict d)
    | _ => .typeError

/-- Exit code plus captured stdout/stderr of one dispatched command. -/
structure ProcResult where
  exitCode : Nat
  stdout : List String
  stderr : List String

/-- `cli.dispatch` around a watch handler: the handler prints `renderLines`
applied to the subscribed payloads; an `APIError` raised at subscribe time
is caught, reported on stderr and turned into the exit code.  An uncaught
`AttributeError` makes the interpreter exit with code 1 (traceback elided
from the model). -/
def watchDispatch (r : HttpResponse) (renderLines : List String → List String)
    (asJson : Bool) : ProcResult :=
  match streamSse r with
  | .ok payloads => ⟨0, renderLines payloads, []⟩
  | .apiError code message payload =>
      ⟨code, [],
        ["API error (" ++ toString code ++ "): " ++
          toString code ++ ": " ++ message] ++
        (if !payload.isNone && asJson then [pyStr payload] else [])⟩
  | .typeError => ⟨1, [], []⟩

/-! ### Marketplace watch (`_marketplace_watch`) -/

/-- The loop of `_marketplace_watch`: print one line per payload (raw in
JSON mode, else `_summarize_marketplace_event`, here abstracted as the
total `summarize` argument), stopping once the non-zero budget is met. -/
def marketplaceWatchGo (summarize : String → String) (asJson : Bool)
    (maxEvents : Int) : List String → Int → List String
  | [], _ => []
  | p :: rest, count =>
      let line := if asJson then p else summarize p
      let count := count + 1
      if maxEvents ≠ 0 && maxEvents ≤ count then [line]
      else line :: marketplaceWatchGo summarize asJson maxEvents rest count

/-- `_marketplace_watch` over the decoded payload sequence. -/
def marketplaceWatch (summarize : String → String) (asJson : Bool)
    (payloads : List String) (maxEvents : Int) : List String :=
  marketplaceWatchGo summarize asJson maxEvents payloads 0

/-! ### Values and predicates used by the claim statements -/

/-- `isinstance(x, str)`. -/
def JVal.isStr : JVal → Bool
  | .jstr _ => true
  | _ => false

/-- `isinstance(x, bool)`. -/
def JVal.isBool : JVal → Bool
  | .jbool _ => true
  | _ => false

/-- `isinstance(x, dict)`. -/
def JVal.isDict : JVal → Bool
  | .jdict _ => true
  | _ => false

/-- `isinstance(x, list)`. -/
def JVal.isList : JVal → Bool
  | .jlist _ => true
  | _ => false

/-- The first event of the end-to-end policy scenario:
`{"server_id":9,"type":"decision","attestation_status":"trusted"}`. -/
def scenarioEvent1 : Event :=
  [("server_id", .jint 9), ("type", .jstr "decision"),
   ("attestation_status", .jstr "trusted")]

/-- The second event of the end-to-end policy scenario:
`{"server_id":9,"type":"attestation","attestation_status":"untrusted",
"instance_id":"vm-alpha"}`. -/
def scenarioEvent2 : Event :=
  [("server_id", .jint 9), ("type", .jstr "attestation"),
   ("attestation_status", .jstr "untrusted"), ("instance_id", .jstr "vm-alpha")]

/-- The line the renderer actually produces for the second scenario event. -/
def scenarioLine2 : String :=
  "[] server 9 ATTESTATION attestation untrusted (was trusted); " ++
  "instance vm-alpha | Active instance: vm-alpha | Latest posture: untrusted"

/-- A trust event carrying only the identity fields: no tracked posture
field, no notes — a pure duplicate/heartbeat shape. -/
def minimalTrustEvent : Event :=
  [("server_id", .jint 1), ("vm_instance_id", .jint 2)]

/-- A policy event carrying the always-reported `fallback_backend` field. -/
def fallbackEvent : Event :=
  [("server_id", .jint 4), ("fallback_backend", .jstr "edge")]

/-- Modelled from the spec: the payload C8 prescribes for a `data:` line —
the remainder of the line after the `data:` prefix and a single following
space if present, with no other transformation. -/
def specDataRemainder (line : String) : String :=
  match line.data.drop 5 with
  | ' ' :: t => ⟨t⟩
  | rest => ⟨rest⟩

/-- The notable-note predicate as enumerated by the claim (the same four
conditions as `noteIsSignal`, in the claim's order). -/
def claimNotable (s : String) : Bool :=
  strStarts s "vm:attestation" || strStarts s "attestation:" ||
  strStarts s "provider-key:" || strContains s "fallback"

/-- The 503 subscribe response of the end-to-end error scenario:
HTTP 503 with JSON body `{"error":"unavailable"}`. -/
def resp503 : HttpResponse :=
  ⟨503, some (.jdict [("error", .jstr "unavailable")]),
   "\x7b\"error\": \"unavailable\"\x7d", []⟩

/-- The posture dict reflects every diffed field the event carries: the
stored value under each diffed key equals the event's value.  This is the
state reached immediately after `_render_policy_event` processes the
event, and it makes a repeated application emit no change records. -/
def policyConverged (e : Event) (s : Summary) : Prop :=
  ((eget e "backend").isStr = true →
    alistGet? s "backend" = some (eget e "backend")) ∧
  ((eget e "attestation_status").isStr = true →
    alistGet? s "attestation_status" = some (eget e "attestation_status")) ∧
  ((eget e "trust_lifecycle_state").isStr = true →
    alistGet? s "trust_lifecycle_state" = some (eget e "trust_lifecycle_state")) ∧
  (pyIsInt (eget e "trust_remediation_attempts") = true →
    alistGet? s "trust_remediation_attempts" =
      some (eget e "trust_remediation_attempts")) ∧
  ((eget e "stale").isBool = true →
    alistGet? s "stale" = some (eget e "stale")) ∧
  ((eget e "evaluation_required").isBool = true →
    alistGet? s "evaluation_required" = some (eget e "evaluation_required")) ∧
  ((eget e "governance_required").isBool = true →
    alistGet? s "governance_required" = some (eget e "governance_required")) ∧
  (∀ pk, eget e "provider_key_posture" = .jdict pk →
    ((alistGet pk "state").isStr = true →
      alistGet? s "provider_key_state" = some (alistGet pk "state")) ∧
    ((alistGet pk "vetoed").isBool = true →
      alistGet? s "provider_key_vetoed" = some (alistGet pk "vetoed"))) ∧
  ((eget e "instance_id").isStr = true →
    alistGet? s "instance_id" = some (eget e "instance_id"))

/-! ### Basic lemmas about the embedded dictionary and string operations -/

theorem alistGet?_set_self (s : List (String × JVal)) (k : String) (v : JVal) :
    alistGet? (alistSet s k v) k = some v := by
  induction s with
  | nil => simp [alistSet, alistGet?]
  | cons hd tl ih =>
      obtain ⟨k', v'⟩ := hd
      by_cases hk : k' = k
      · simp [alistSet, alistGet?, hk]
      · simp [alistSet, alistGet?, hk, ih]

theorem alistGet?_set_ne (s : List (String × JVal)) (k k' : String) (v : JVal)
    (h : k' ≠ k) : alistGet? (alistSet s k v) k' = alistGet? s k' := by
  induction s with
  | nil => simp [alistSet, alistGet?, Ne.symm h]
  | cons hd tl ih =>
      obtain ⟨k'', v''⟩ := hd
      by_cases hk : k'' = k
      · subst hk
        simp [alistSet, alistGet?, Ne.symm h]
      · simp [alistSet, alistGet?, hk, ih]

theorem pstateGet?_set_self (st : PolicyState) (k : Int) (v : Summary) :
    pstateGet? (pstateSet st k v) k = some v := by
  induction st with
  | nil => simp [pstateSet, pstateGet?]
  | cons hd tl ih =>
      obtain ⟨k', v'⟩ := hd
      by_cases hk : k' = k
      · simp [pstateSet, pstateGet?, hk]
      · simp [pstateSet, pstateGet?, hk, ih]

theorem pstateGet?_set_ne (st : PolicyState) (k k' : Int) (v : Summary)
    (h : k' ≠ k) : pstateGet? (pstateSet st k v) k' = pstateGet? st k' := by
  induction st with
  | nil => simp [pstateSet, pstateGet?, Ne.symm h]
  | cons hd tl ih =>
      obtain ⟨k'', v''⟩ := hd
      by_cases hk : k'' = k
      · subst hk
        simp [pstateSet, pstateGet?, Ne.symm h]
      · simp [pstateSet, pstateGet?, hk, ih]

theorem dropWhile_append_singleton_reverse {p : Char → Bool} {x : Char}
    (hx : p x = false) (l : List Char) :
    (List.dropWhile p (l ++ [x])).reverse = x :: (List.dropWhile p l).reverse := by
  induction l with
  | nil => simp [List.dropWhile, hx]
  | cons y t ih =>
      by_cases hy : p y = true
      · simpa [List.dropWhile, hy] using ih
      · simp only [Bool.not_eq_true] at hy
        simp [List.dropWhile, hy, hx]

theorem dropTrail_cons_of_neg {p : Char → Bool} {x : Char} {xs : List Char}
    (h : p x = false) : dropTrail p (x :: xs) = x :: dropTrail p xs := by
  unfold dropTrail
  have : (x :: xs).reverse = xs.reverse ++ [x] := by simp
  rw [this, dropWhile_append_singleton_reverse h]

theorem pyStrip_cons_nonspace {c : Char} {t : List Char}
    (hc : isPySpace c = false) :
    pyStrip ⟨c :: t⟩ = ⟨c :: dropTrail isPySpace t⟩ := by
  unfold pyStrip
  simp only [List.dropWhile, hc]
  rw [dropTrail_cons_of_neg hc]

/-! ### Claim theorems -/

/-- C4: an event whose identity field is missing or of the wrong type is
dropped by each watch renderer without raising and without touching any
posture state: the policy renderer returns `none` and the state exactly as
given; the trust renderer returns `.ok ""` (no exception, and it keeps no
state); the remediation renderer prints nothing (and keeps no state). -/
theorem malformed_identity_is_dropped :
    (∀ (e : Event) (st : PolicyState) (c : Bool),
      pyIsInt (eget e "server_id") = false →
      renderPolicyEvent e st c = (none, st)) ∧
    (∀ e : Event,
      (pyIsInt (eget e "server_id") && pyIsInt (eget e "vm_instance_id")) = false →
      renderTrustEvent e = .ok "") ∧
    (∀ e : Event,
      ((eget e "run_id").isNone || (eget e "instance_id").isNone) = true →
      renderRemediationEvent e = []) := by
  refine ⟨?_, ?_, ?_⟩
  · intro e st c h
    simp [renderPolicyEvent, h]
  · intro e h
    have hg : (!pyIsInt (eget e "server_id") ||
        !pyIsInt (eget e "vm_instance_id")) = true := by
      cases h1 : pyIsInt (eget e "server_id") <;>
        cases h2 : pyIsInt (eget e "vm_instance_id") <;> simp_all
    simp [renderTrustEvent, hg]
  · intro e h
    simp [renderRemediationEvent, h]

/-- Witness for C4: a string `server_id`, a missing `vm_instance_id` and a
missing `instance_id` are each dropped. -/
theorem malformed_identity_is_dropped_w :
    renderPolicyEvent [("server_id", .jstr "nine")] [] false = (none, []) ∧
    renderTrustEvent [("server_id", .jint 1)] = .ok "" ∧
    renderRemediationEvent [("run_id", .jint 5)] = [] :=
  ⟨malformed_identity_is_dropped.1 _ [] false (by decide),
   malformed_identity_is_dropped.2.1 _ (by decide),
   malformed_identity_is_dropped.2.2 _ (by decide)⟩

/-- C6: processing one policy event touches at most the posture map stored
under the event's own server id; every other key of the state reads back
unchanged (when the identity is malformed, the whole state is untouched). -/
theorem policy_event_frame :
    ∀ (e : Event) (st : PolicyState) (c : Bool) (k : Int),
      (pyIsInt (eget e "server_id") = true → k ≠ pyIntVal (eget e "server_id")) →
      pstateGet? (renderPolicyEvent e st c).2 k = pstateGet? st k := by
  intro e st c k hk
  by_cases h : pyIsInt (eget e "server_id") = true
  · have hne := hk h
    simp only [renderPolicyEvent, h, Bool.not_true, Bool.false_eq_true,
      if_false]
    split <;> exact pstateGet?_set_ne st _ k _ hne
  · have h' : pyIsInt (eget e "server_id") = false := by
      simpa using h
    simp [renderPolicyEvent, h']

/-- Witness for C6: feeding the scenario event (server 9) leaves the
posture stored for server 7 unchanged. -/
theorem policy_event_frame_w :
    pstateGet? (renderPolicyEvent scenarioEvent1
      [((7 : Int), [("backend", .jstr "a")])] false).2 7 =
    pstateGet? [((7 : Int), [("backend", .jstr "a")])] 7 :=
  policy_event_frame scenarioEvent1 _ false 7 (fun _ => by decide)

/-- C10: a policy note is notable iff it is a string that starts with
`vm:attestation`, starts with `attestation:`, starts with `provider-key:`,
or contains `fallback`; non-string entries are ignored and a non-list
`notes` value yields no notable notes. -/
theorem notable_notes_characterisation :
    (∀ v : JVal, v.isList = false → filterSignalNotes v = []) ∧
    (∀ (xs : List JVal) (s : String),
      s ∈ filterSignalNotes (.jlist xs) ↔
        (JVal.jstr s ∈ xs ∧ claimNotable s = true)) := by
  have hpred : ∀ s, noteIsSignal s = claimNotable s := by
    intro s
    unfold noteIsSignal claimNotable
    cases strContains s "fallback" <;>
      cases strStarts s "provider-key:" <;> simp
  constructor
  · intro v hv
    cases v <;> simp_all [filterSignalNotes, JVal.isList]
  · intro xs s
    simp only [filterSignalNotes, List.mem_filterMap]
    constructor
    · rintro ⟨a, ha, hfa⟩
      cases a with
      | jstr s' =>
          by_cases hs : noteIsSignal s' = true
          · simp only [hs, if_true] at hfa
            obtain rfl : s' = s := by simpa using hfa
            exact ⟨ha, (hpred _) ▸ hs⟩
          · simp [hs] at hfa
      | jnull => simp at hfa
      | jbool b => simp at hfa
      | jint n => simp at hfa
      | jlist l => simp at hfa
      | jdict d => simp at hfa
    · rintro ⟨ha, hns⟩
      exact ⟨.jstr s, ha, by simp [(hpred s) ▸ hns]⟩

/-- Witness for C10: a non-list `notes` value yields nothing; an
`attestation:`-prefixed string note is notable. -/
theorem notable_notes_characterisation_w :
    filterSignalNotes (.jint 3) = [] ∧
    ("attestation: ok" ∈
        filterSignalNotes (.jlist [.jstr "attestation: ok", .jint 3]) ↔
      (JVal.jstr "attestation: ok" ∈ [JVal.jstr "attestation: ok", .jint 3] ∧
        claimNotable "attestation: ok" = true)) :=
  ⟨notable_notes_characterisation.1 _ (by decide),
   notable_notes_characterisation.2 _ _⟩

theorem sseDecodeLine?_comment (l : String)
    (h : pyStrip l = "" ∨ strStarts l ":" = true) : sseDecodeLine? l = none := by
  rcases h with h | h
  · simp [sseDecodeLine?, h]
  · obtain ⟨ld⟩ := l
    cases ld with
    | nil => simp [strStarts, List.isPrefixOf] at h
    | cons c t =>
        have hc : c = ':' := by
          simp [strStarts, List.isPrefixOf] at h
          exact h.symm
        subst hc
        have hsp : isPySpace ':' = false := by decide
        simp [sseDecodeLine?, pyStrip_cons_nonspace hsp, strStarts,
          List.isPrefixOf]

/-- C7: a stream of only blank and `:`-comment lines decodes to zero
payloads, and the watch loop over zero payloads renders zero lines and
leaves the state untouched. -/
theorem comment_stream_yields_nothing :
    (∀ ls : List String,
      (∀ l ∈ ls, pyStrip l = "" ∨ strStarts l ":" = true) →
      sseDecode ls = []) ∧
    (∀ (st : PolicyState) (c : Bool), policyFeed [] st c = ([], st)) := by
  constructor
  · intro ls h
    induction ls with
    | nil => rfl
    | cons hd tl ih =>
        rw [sseDecode, List.filterMap_cons,
          sseDecodeLine?_comment hd (h hd (by simp))]
        exact ih fun l hl => h l (by simp [hl])
  · intro st c
    rfl

/-- Witness for C7: heartbeats and blanks produce nothing. -/
theorem comment_stream_yields_nothing_w :
    sseDecode ["  ", ": heartbeat", ":x", ""] = [] ∧
    policyFeed [] [] false = ([], []) :=
  ⟨comment_stream_yields_nothing.1 _ (by decide),
   comment_stream_yields_nothing.2 [] false⟩

/-- C8 (counterexample): for the line `data:  x` the decoder emits `x`
(the remainder stripped of all surrounding whitespace), not the ` x` the
claim prescribes (remainder after the prefix and a single space). -/
theorem data_line_payload_counterexample :
    sseDecode ["data:  x"] = ["x"] ∧
    specDataRemainder "data:  x" = " x" ∧
    ("x" : String) ≠ " x" := by
  refine ⟨rfl, rfl, by decide⟩

/-- C8 (amended): a stripped line beginning with `data:` immediately emits
exactly one payload — the remainder after the 5-character prefix with
surrounding ASCII whitespace stripped (the raw line itself having been
stripped first). -/
theorem data_line_emits_stripped_remainder :
    ∀ raw : String, strStarts (pyStrip raw) "data:" = true →
      sseDecodeLine? raw = some (pyStrip ⟨(pyStrip raw).data.drop 5⟩) ∧
      ∀ rest, sseDecode (raw :: rest) =
        pyStrip ⟨(pyStrip raw).data.drop 5⟩ :: sseDecode rest := by
  intro raw h
  have hmain : sseDecodeLine? raw = some (pyStrip ⟨(pyStrip raw).data.drop 5⟩) := by
    unfold sseDecodeLine?
    generalize hg : pyStrip raw = line at h ⊢
    obtain ⟨ld⟩ := line
    have hpre : ∃ u, ld = 'd' :: 'a' :: 't' :: 'a' :: ':' :: u := by
      have hd : (("data:" : String)).data = ['d', 'a', 't', 'a', ':'] := rfl
      unfold strStarts at h
      rw [hd, List.isPrefixOf_iff_prefix] at h
      obtain ⟨u, hu⟩ := h
      exact ⟨u, hu.symm⟩
    obtain ⟨u, rfl⟩ := hpre
    have h1 : (':' == 'd') = false := by decide
    simp [strStarts, List.isPrefixOf, h1]
  refine ⟨hmain, fun rest => ?_⟩
  show List.filterMap _ (raw :: rest) = _
  rw [List.filterMap_cons, hmain]
  rfl

/-- Witness for C8: the line `data: hi` emits the payload `hi` at once. -/
theorem data_line_emits_stripped_remainder_w :
    sseDecodeLine? "data: hi" =
      some (pyStrip ⟨(pyStrip "data: hi").data.drop 5⟩) ∧
    sseDecode ["data: hi", ":x"] =
      pyStrip ⟨(pyStrip "data: hi").data.drop 5⟩ :: sseDecode [":x"] :=
  ⟨(data_line_emits_stripped_remainder "data: hi" (by decide)).1,
   (data_line_emits_stripped_remainder "data: hi" (by decide)).2 [":x"]⟩

theorem mwGo_zero (f : String → String) (j : Bool) :
    ∀ (ps : List String) (count : Int),
      marketplaceWatchGo f j 0 ps count =
        ps.map fun p => if j then p else f p := by
  intro ps
  induction ps with
  | nil => intro count; rfl
  | cons p rest ih =>
      intro count
      simp [marketplaceWatchGo, ih]

theorem mwGo_budget (n : Int) (f : String → String) (j : Bool) :
    ∀ (ps : List String) (count : Int), 0 < n → count < n →
      marketplaceWatchGo f j n ps count =
        (ps.take (n - count).toNat).map fun p => if j then p else f p := by
  intro ps
  induction ps with
  | nil => intro count h0 hc; simp [marketplaceWatchGo]
  | cons p rest ih =>
      intro count h0 hc
      rw [marketplaceWatchGo]
      split
      · next hcond =>
          have hle : n ≤ count + 1 := by
            simp at hcond
            exact hcond.2
          have : (n - count).toNat = 1 := by omega
          simp [this]
      · next hcond =>
          have hlt : count + 1 < n := by
            simp at hcond
            omega
          rw [ih (count + 1) h0 hlt]
          have : (n - count).toNat = (n - (count + 1)).toNat + 1 := by omega
          simp [this]

/-- C9: with a positive `--max-events` budget N the marketplace watch
prints exactly the first N rendered payloads (N lines when the stream
carries at least N payloads) and stops; with the budget unset (0) it
renders every payload. -/
theorem marketplace_watch_budget :
    ∀ (f : String → String) (j : Bool) (ps : List String) (n : Int),
      (0 < n →
        marketplaceWatch f j ps n =
          (ps.take n.toNat).map (fun p => if j then p else f p) ∧
        (n ≤ ps.length → ((marketplaceWatch f j ps n).length : Int) = n)) ∧
      (n = 0 →
        marketplaceWatch f j ps n = ps.map fun p => if j then p else f p) := by
  intro f j ps n
  constructor
  · intro hn
    have h1 : marketplaceWatch f j ps n =
        (ps.take n.toNat).map fun p => if j then p else f p := by
      unfold marketplaceWatch
      rw [mwGo_budget n f j ps 0 hn hn]
      norm_num
    refine ⟨h1, fun hlen => ?_⟩
    rw [h1]
    simp only [List.length_map, List.length_take]
    omega
  · intro hn
    subst hn
    exact mwGo_zero f j ps 0

/-- Witness for C9: budget 2 over a 3-payload stream prints 2 lines;
budget 0 prints all 3. -/
theorem marketplace_watch_budget_w :
    marketplaceWatch (fun s => s ++ "!") false ["a", "b", "c"] 2 =
      ["a!", "b!"] ∧
    marketplaceWatch (fun s => s ++ "!") false ["a", "b", "c"] 0 =
      ["a!", "b!", "c!"] := by
  have h2 := (marketplace_watch_budget (fun s => s ++ "!") false
    ["a", "b", "c"] 2).1 (by decide)
  have h0 := (marketplace_watch_budget (fun s => s ++ "!") false
    ["a", "b", "c"] 0).2 rfl
  exact ⟨by rw [h2.1]; rfl, by rw [h0]; rfl⟩

/-- C5: subscribing at HTTP 503 with body `{"error":"unavailable"}` makes
the watch command exit with code 503, print an error line containing `503`
and `unavailable`, and emit zero event lines; generally a non-2xx
subscribe response never yields payloads, and when it raises an `APIError`
the carried status code equals the response status and becomes the exit
code with empty stdout. -/
theorem subscribe_error_behaviour :
    (∀ render : List String → List String,
      watchDispatch resp503 render false =
        ⟨503, [], ["API error (503): 503: unavailable"]⟩) ∧
    strContains "API error (503): 503: unavailable" "503" = true ∧
    strContains "API error (503): 503: unavailable" "unavailable" = true ∧
    (∀ r : HttpResponse, ¬(200 ≤ r.status ∧ r.status < 300) →
      (∀ ps, streamSse r ≠ .ok ps) ∧
      (∀ (render : List String → List String) (j : Bool) code msg payload,
        streamSse r = .apiError code msg payload →
        code = r.status ∧
        (watchDispatch r render j).exitCode = r.status ∧
        (watchDispatch r render j).stdout = [])) := by
  refine ⟨fun render => rfl, by decide, by decide, ?_⟩
  intro r hr
  constructor
  · intro ps
    unfold streamSse
    rw [if_neg hr]
    cases hep : errorPayload r <;> simp
  · intro render j code msg payload h
    have hcode : code = r.status := by
      unfold streamSse at h
      rw [if_neg hr] at h
      cases hep : errorPayload r <;> rw [hep] at h <;> simp_all
    exact ⟨hcode, by simp [watchDispatch, h, hcode], by simp [watchDispatch, h]⟩

/-- Witness for C5: the 503 response yields no payloads and exit code 503. -/
theorem subscribe_error_behaviour_w :
    (∀ ps, streamSse resp503 ≠ .ok ps) ∧
    (watchDispatch resp503 (fun x => x) false).exitCode = 503 := by
  have h := subscribe_error_behaviour.2.2.2 resp503 (by decide)
  refine ⟨h.1, ?_⟩
  exact (h.2 (fun x => x) false 503 "unavailable"
    (.jdict [("error", .jstr "unavailable")]) rfl).2.1

/-- C1 (counterexample): the two scenario events render exactly two lines,
but the second line does not contain `attestation trusted -> untrusted`
(the code renders `attestation untrusted (was trusted)` instead); the
`Active instance: vm-alpha` part does hold. -/
theorem scenario_second_line_counterexample :
    (policyFeed [scenarioEvent1, scenarioEvent2] [] false).1 =
      ["[] server 9 DECISION attestation trusted | Latest posture: trusted",
        scenarioLine2] ∧
    strContains scenarioLine2 "attestation trusted -> untrusted" = false ∧
    strContains scenarioLine2 "Active instance: vm-alpha" = true := by
  refine ⟨rfl, by decide, by decide⟩

/-- C1 (amended): feeding the two scenario events produces exactly two
rendered lines, and the second contains `attestation untrusted (was
trusted)` and `Active instance: vm-alpha`. -/
theorem scenario_second_line_amended :
    (policyFeed [scenarioEvent1, scenarioEvent2] [] false).1.length = 2 ∧
    (policyFeed [scenarioEvent1, scenarioEvent2] [] false).1.getLast? =
      some scenarioLine2 ∧
    strContains scenarioLine2 "attestation untrusted (was trusted)" = true ∧
    strContains scenarioLine2 "Active instance: vm-alpha" = true := by
  refine ⟨rfl, rfl, by decide, by decide⟩

/-- C2 (counterexample): a trust event carrying only the identity fields —
no tracked posture values and no notes, hence zero change records under
the spec's reading — still renders a non-empty line: the trust renderer
never suppresses an accepted event. -/
theorem trust_no_change_still_renders :
    renderTrustEvent minimalTrustEvent =
      .ok ("[unknown] server 1 vm 2 | status - -> unknown | lifecycle - -> - " ++
        "| remediation - (attempts -) | freshness fresh") ∧
    ("[unknown] server 1 vm 2 | status - -> unknown | lifecycle - -> - " ++
        "| remediation - (attempts -) | freshness fresh" : String) ≠ "" ∧
    filterSignalNotes (eget minimalTrustEvent "notes") = [] := by
  refine ⟨rfl, by decide, rfl⟩

/-- C2 (amended): for the policy renderer the suppression rule holds: an
accepted event that produces no change records and carries no notable
notes yields no output line.  (The trust renderer instead renders every
accepted event — see the counterexample.) -/
theorem policy_silent_without_changes :
    ∀ (e : Event) (st : PolicyState) (c : Bool),
      (policyApplyFields e c
        ((pstateGet? st (pyIntVal (eget e "server_id"))).getD [])).2 = [] →
      filterSignalNotes (eget e "notes") = [] →
      (renderPolicyEvent e st c).1 = none := by
  intro e st c hch hn
  by_cases h : pyIsInt (eget e "server_id") = true
  · simp [renderPolicyEvent, h, hch, hn]
  · have h' : pyIsInt (eget e "server_id") = false := by simpa using h
    simp [renderPolicyEvent, h']

/-- Witness for C2: an event with only a `server_id` is silent. -/
theorem policy_silent_without_changes_w :
    (renderPolicyEvent [(("server_id" : String), JVal.jint 3)] [] false).1 =
      none :=
  policy_silent_without_changes _ [] false (by decide) (by decide)

/-! ### Frame lemmas: each policy field block writes only its own keys -/

theorem pBackend_frame (e : Event) (sc : SC) (k : String) (hk : k ≠ "backend") :
    alistGet? (pBackend e sc).1 k = alistGet? sc.1 k := by
  unfold pBackend
  cases eget e "backend" <;>
    first
      | rfl
      | (dsimp only; split <;> (try split) <;>
          simp [alistGet?_set_ne _ _ _ _ hk])

theorem pCandidate_frame (e : Event) (sc : SC) (k : String)
    (hk : k ≠ "candidate_backend") :
    alistGet? (pCandidate e sc).1 k = alistGet? sc.1 k := by
  unfold pCandidate
  cases eget e "candidate_backend" <;>
    first
      | rfl
      | simp [alistGet?_set_ne _ _ _ _ hk]

theorem pFallback_frame (e : Event) (sc : SC) (k : String)
    (hk : k ≠ "fallback_backend") :
    alistGet? (pFallback e sc).1 k = alistGet? sc.1 k := by
  unfold pFallback
  cases eget e "fallback_backend" <;>
    first
      | rfl
      | simp [alistGet?_set_ne _ _ _ _ hk]

theorem pInstanceEarly_frame (e : Event) (sc : SC) (k : String)
    (hk : k ≠ "active_instance") :
    alistGet? (pInstanceEarly e sc).1 k = alistGet? sc.1 k := by
  unfold pInstanceEarly
  cases eget e "instance_id" <;>
    first
      | rfl
      | simp [alistGet?_set_ne _ _ _ _ hk]

theorem pAttestation_frame (e : Event) (uc : Bool) (sc : SC) (k : String)
    (hk : k ≠ "attestation_status") :
    alistGet? (pAttestation e uc sc).1 k = alistGet? sc.1 k := by
  unfold pAttestation
  cases eget e "attestation_status" <;>
    first
      | rfl
      | (dsimp only; split <;> (try split) <;>
          simp [alistGet?_set_ne _ _ _ _ hk])

theorem pTrustEvent_frame (e : Event) (sc : SC) (k : String)
    (hk : k ≠ "trust_event_id") :
    alistGet? (pTrustEvent e sc).1 k = alistGet? sc.1 k := by
  unfold pTrustEvent
  cases eget e "trust_event" <;>
    first
      | rfl
      | simp [alistGet?_set_ne _ _ _ _ hk]

theorem pTrustEventId_frame (e : Event) (sc : SC) (k : String)
    (hk : k ≠ "trust_event_id") :
    alistGet? (pTrustEventId e sc).1 k = alistGet? sc.1 k := by
  unfold pTrustEventId
  dsimp only
  split <;> simp [alistGet?_set_ne _ _ _ _ hk]

theorem pLifecycle_frame (e : Event) (sc : SC) (k : String)
    (hk : k ≠ "trust_lifecycle_state") :
    alistGet? (pLifecycle e sc).1 k = alistGet? sc.1 k := by
  unfold pLifecycle
  cases eget e "trust_lifecycle_state" <;>
    first
      | rfl
      | (dsimp only; split <;> (try split) <;>
          simp [alistGet?_set_ne _ _ _ _ hk])

theorem pPrevLifecycle_frame (e : Event) (sc : SC) (k : String)
    (hk : k ≠ "trust_previous_lifecycle_state") :
    alistGet? (pPrevLifecycle e sc).1 k = alistGet? sc.1 k := by
  unfold pPrevLifecycle
  cases eget e "trust_previous_lifecycle_state" <;>
    first
      | rfl
      | simp [alistGet?_set_ne _ _ _ _ hk]

theorem pRemAttempts_frame (e : Event) (sc : SC) (k : String)
    (hk : k ≠ "trust_remediation_attempts") :
    alistGet? (pRemAttempts e sc).1 k = alistGet? sc.1 k := by
  unfold pRemAttempts
  dsimp only
  split <;> (try split) <;> simp [alistGet?_set_ne _ _ _ _ hk]

theorem pFreshness_frame (e : Event) (sc : SC) (k : String)
    (hk : k ≠ "trust_freshness_deadline") :
    alistGet? (pFreshness e sc).1 k = alistGet? sc.1 k := by
  unfold pFreshness
  cases pyOr (eget e "freshness_expires_at") (eget e "trust_freshness_deadline") <;>
    first
      | rfl
      | simp [alistGet?_set_ne _ _ _ _ hk]

theorem pProvenanceRef_frame (e : Event) (sc : SC) (k : String)
    (hk : k ≠ "trust_provenance_ref") :
    alistGet? (pProvenanceRef e sc).1 k = alistGet? sc.1 k := by
  unfold pProvenanceRef
  cases eget e "trust_provenance_ref" <;>
    first
      | rfl
      | simp [alistGet?_set_ne _ _ _ _ hk]

theorem pProvenance_frame (e : Event) (sc : SC) (k : String)
    (hk : k ≠ "trust_provenance") :
    alistGet? (pProvenance e sc).1 k = alistGet? sc.1 k := by
  unfold pProvenance
  dsimp only
  split <;> simp [alistGet?_set_ne _ _ _ _ hk]

theorem pStale_frame (e : Event) (sc : SC) (k : String) (hk : k ≠ "stale") :
    alistGet? (pStale e sc).1 k = alistGet? sc.1 k := by
  unfold pStale
  cases eget e "stale" <;>
    first
      | rfl
      | (dsimp only; split <;> (try split) <;>
          simp [alistGet?_set_ne _ _ _ _ hk])

theorem pEvalGov_frame (field label : String) (e : Event) (sc : SC) (k : String)
    (hk : k ≠ field) :
    alistGet? (pEvalGov field label e sc).1 k = alistGet? sc.1 k := by
  unfold pEvalGov
  cases eget e field <;>
    first
      | rfl
      | (dsimp only; split <;> (try split) <;>
          simp [alistGet?_set_ne _ _ _ _ hk])

theorem pPkState_frame (pk : List (String × JVal)) (sc : SC) (k : String)
    (hk : k ≠ "provider_key_state") :
    alistGet? (pPkState pk sc).1 k = alistGet? sc.1 k := by
  unfold pPkState
  cases alistGet pk "state" <;>
    first
      | rfl
      | (dsimp only; split <;> (try split) <;>
          simp [alistGet?_set_ne _ _ _ _ hk])

theorem pPkVeto_frame (pk : List (String × JVal)) (sc : SC) (k : String)
    (hk : k ≠ "provider_key_vetoed") :
    alistGet? (pPkVeto pk sc).1 k = alistGet? sc.1 k := by
  unfold pPkVeto
  cases alistGet pk "vetoed" <;>
    first
      | rfl
      | (dsimp only; split <;> (try split) <;>
          simp [alistGet?_set_ne _ _ _ _ hk])

theorem pPkRotation_frame (pk : List (String × JVal)) (sc : SC) (k : String)
    (hk : k ≠ "provider_key_rotation_due_at") :
    alistGet? (pPkRotation pk sc).1 k = alistGet? sc.1 k := by
  unfold pPkRotation
  cases alistGet pk "rotation_due_at" <;>
    first
      | rfl
      | simp [alistGet?_set_ne _ _ _ _ hk]

theorem pPkNotes_frame (pk : List (String × JVal)) (sc : SC) (k : String)
    (hk : k ≠ "provider_key_notes") :
    alistGet? (pPkNotes pk sc).1 k = alistGet? sc.1 k := by
  unfold pPkNotes
  cases alistGet pk "notes" <;>
    first
      | rfl
      | simp [alistGet?_set_ne _ _ _ _ hk]

theorem pPkProviderId_frame (pk : List (String × JVal)) (sc : SC) (k : String)
    (hk : k ≠ "provider_key_provider_id") :
    alistGet? (pPkProviderId pk sc).1 k = alistGet? sc.1 k := by
  unfold pPkProviderId
  cases alistGet pk "provider_id" <;>
    first
      | rfl
      | simp [alistGet?_set_ne _ _ _ _ hk]

theorem pProviderKey_frame (e : Event) (sc : SC) (k : String)
    (h1 : k ≠ "provider_key_state") (h2 : k ≠ "provider_key_vetoed")
    (h3 : k ≠ "provider_key_rotation_due_at") (h4 : k ≠ "provider_key_notes")
    (h5 : k ≠ "provider_key_provider_id") :
    alistGet? (pProviderKey e sc).1 k = alistGet? sc.1 k := by
  unfold pProviderKey
  cases eget e "provider_key_posture" <;> try rfl
  rw [pPkProviderId_frame _ _ _ h5, pPkNotes_frame _ _ _ h4,
    pPkRotation_frame _ _ _ h3, pPkVeto_frame _ _ _ h2,
    pPkState_frame _ _ _ h1]

theorem pInstance_frame (e : Event) (sc : SC) (k : String)
    (hk : k ≠ "instance_id") :
    alistGet? (pInstance e sc).1 k = alistGet? sc.1 k := by
  unfold pInstance
  cases eget e "instance_id" <;>
    first
      | rfl
      | (dsimp only; split <;> (try split) <;>
          simp [alistGet?_set_ne _ _ _ _ hk])

/-! ### Establishment and silence lemmas for the diffed policy fields -/

theorem isStr_exists {v : JVal} (h : v.isStr = true) : ∃ s, v = .jstr s := by
  cases v <;> simp_all [JVal.isStr]

theorem isBool_exists {v : JVal} (h : v.isBool = true) : ∃ b, v = .jbool b := by
  cases v <;> simp_all [JVal.isBool]

theorem pyIsInt_cases {v : JVal} (h : pyIsInt v = true) :
    (∃ n, v = .jint n) ∨ (∃ b, v = .jbool b) := by
  cases v <;> simp_all [pyIsInt]

theorem pBackend_establish (e : Event) (sc : SC)
    (h : (eget e "backend").isStr = true) :
    alistGet? (pBackend e sc).1 "backend" = some (eget e "backend") := by
  obtain ⟨b, hv⟩ := isStr_exists h
  unfold pBackend
  rw [hv]
  dsimp only
  split <;> (try split) <;> simp [alistGet?_set_self]

theorem pAttestation_establish (e : Event) (uc : Bool) (sc : SC)
    (h : (eget e "attestation_status").isStr = true) :
    alistGet? (pAttestation e uc sc).1 "attestation_status" =
      some (eget e "attestation_status") := by
  obtain ⟨b, hv⟩ := isStr_exists h
  unfold pAttestation
  rw [hv]
  dsimp only
  split <;> (try split) <;> simp [alistGet?_set_self]

theorem pLifecycle_establish (e : Event) (sc : SC)
    (h : (eget e "trust_lifecycle_state").isStr = true) :
    alistGet? (pLifecycle e sc).1 "trust_lifecycle_state" =
      some (eget e "trust_lifecycle_state") := by
  obtain ⟨b, hv⟩ := isStr_exists h
  unfold pLifecycle
  rw [hv]
  dsimp only
  split <;> (try split) <;> simp [alistGet?_set_self]

theorem pRemAttempts_establish (e : Event) (sc : SC)
    (h : pyIsInt (eget e "trust_remediation_attempts") = true) :
    alistGet? (pRemAttempts e sc).1 "trust_remediation_attempts" =
      some (eget e "trust_remediation_attempts") := by
  unfold pRemAttempts
  dsimp only
  rw [if_pos h]
  split <;> simp [alistGet?_set_self]

theorem pStale_establish (e : Event) (sc : SC)
    (h : (eget e "stale").isBool = true) :
    alistGet? (pStale e sc).1 "stale" = some (eget e "stale") := by
  obtain ⟨b, hv⟩ := isBool_exists h
  unfold pStale
  rw [hv]
  dsimp only
  split <;> simp [alistGet?_set_self]

theorem pEvalGov_establish (field label : String) (e : Event) (sc : SC)
    (h : (eget e field).isBool = true) :
    alistGet? (pEvalGov field label e sc).1 field = some (eget e field) := by
  obtain ⟨b, hv⟩ := isBool_exists h
  unfold pEvalGov
  rw [hv]
  dsimp only
  split <;> (try split) <;> simp [alistGet?_set_self]

theorem pPkState_establish (pk : List (String × JVal)) (sc : SC)
    (h : (alistGet pk "state").isStr = true) :
    alistGet? (pPkState pk sc).1 "provider_key_state" =
      some (alistGet pk "state") := by
  obtain ⟨b, hv⟩ := isStr_exists h
  unfold pPkState
  rw [hv]
  dsimp only
  split <;> (try split) <;> simp [alistGet?_set_self]

theorem pPkVeto_establish (pk : List (String × JVal)) (sc : SC)
    (h : (alistGet pk "vetoed").isBool = true) :
    alistGet? (pPkVeto pk sc).1 "provider_key_vetoed" =
      some (alistGet pk "vetoed") := by
  obtain ⟨b, hv⟩ := isBool_exists h
  unfold pPkVeto
  rw [hv]
  dsimp only
  split <;> simp [alistGet?_set_self]

theorem pInstance_establish (e : Event) (sc : SC)
    (h : (eget e "instance_id").isStr = true) :
    alistGet? (pInstance e sc).1 "instance_id" =
      some (eget e "instance_id") := by
  obtain ⟨b, hv⟩ := isStr_exists h
  unfold pInstance
  rw [hv]
  dsimp only
  split <;> (try split) <;> simp [alistGet?_set_self]

theorem pProviderKey_establish (e : Event) (sc : SC) :
    ∀ pk, eget e "provider_key_posture" = .jdict pk →
      ((alistGet pk "state").isStr = true →
        alistGet? (pProviderKey e sc).1 "provider_key_state" =
          some (alistGet pk "state")) ∧
      ((alistGet pk "vetoed").isBool = true →
        alistGet? (pProviderKey e sc).1 "provider_key_vetoed" =
          some (alistGet pk "vetoed")) := by
  intro pk hpk
  unfold pProviderKey
  rw [hpk]
  dsimp only
  constructor
  · intro hs
    rw [pPkProviderId_frame _ _ _ (by decide), pPkNotes_frame _ _ _ (by decide),
      pPkRotation_frame _ _ _ (by decide), pPkVeto_frame _ _ _ (by decide)]
    exact pPkState_establish pk sc hs
  · intro hv
    rw [pPkProviderId_frame _ _ _ (by decide), pPkNotes_frame _ _ _ (by decide),
      pPkRotation_frame _ _ _ (by decide)]
    exact pPkVeto_establish pk _ hv

theorem pBackend_silent (e : Event) (sc : SC)
    (h : (eget e "backend").isStr = true →
      alistGet? sc.1 "backend" = some (eget e "backend")) :
    (pBackend e sc).2 = sc.2 := by
  by_cases hg : (eget e "backend").isStr = true
  · obtain ⟨b, hv⟩ := isStr_exists hg
    have hb : alistGet? sc.1 "backend" = some (.jstr b) := by
      have hx := h hg
      rw [hv] at hx
      exact hx
    unfold pBackend
    rw [hv]
    dsimp only
    have hget : alistGet sc.1 "backend" = JVal.jstr b := by
      rw [alistGet, hb]
      rfl
    rw [hget]
    simp [JVal.isNone, pyEqV]
  · unfold pBackend
    cases hv : eget e "backend" <;> try rfl
    rw [hv] at hg
    simp [JVal.isStr] at hg

theorem pAttestation_silent (e : Event) (uc : Bool) (sc : SC)
    (h : (eget e "attestation_status").isStr = true →
      alistGet? sc.1 "attestation_status" = some (eget e "attestation_status")) :
    (pAttestation e uc sc).2 = sc.2 := by
  by_cases hg : (eget e "attestation_status").isStr = true
  · obtain ⟨b, hv⟩ := isStr_exists hg
    have hb : alistGet? sc.1 "attestation_status" = some (.jstr b) := by
      have hx := h hg
      rw [hv] at hx
      exact hx
    unfold pAttestation
    rw [hv]
    dsimp only
    have hget : alistGet sc.1 "attestation_status" = JVal.jstr b := by
      rw [alistGet, hb]
      rfl
    rw [hget]
    simp [JVal.isNone, pyEqV]
  · unfold pAttestation
    cases hv : eget e "attestation_status" <;> try rfl
    rw [hv] at hg
    simp [JVal.isStr] at hg

theorem pLifecycle_silent (e : Event) (sc : SC)
    (h : (eget e "trust_lifecycle_state").isStr = true →
      alistGet? sc.1 "trust_lifecycle_state" =
        some (eget e "trust_lifecycle_state")) :
    (pLifecycle e sc).2 = sc.2 := by
  by_cases hg : (eget e "trust_lifecycle_state").isStr = true
  · obtain ⟨b, hv⟩ := isStr_exists hg
    have hb : alistGet? sc.1 "trust_lifecycle_state" = some (.jstr b) := by
      have hx := h hg
      rw [hv] at hx
      exact hx
    unfold pLifecycle
    rw [hv]
    dsimp only
    have hget : alistGet sc.1 "trust_lifecycle_state" = JVal.jstr b := by
      rw [alistGet, hb]
      rfl
    rw [hget]
    simp [JVal.isNone, pyEqV]
  · unfold pLifecycle
    cases hv : eget e "trust_lifecycle_state" <;> try rfl
    rw [hv] at hg
    simp [JVal.isStr] at hg

theorem pRemAttempts_silent (e : Event) (sc : SC)
    (h : pyIsInt (eget e "trust_remediation_attempts") = true →
      alistGet? sc.1 "trust_remediation_attempts" =
        some (eget e "trust_remediation_attempts")) :
    (pRemAttempts e sc).2 = sc.2 := by
  unfold pRemAttempts
  dsimp only
  by_cases hg : pyIsInt (eget e "trust_remediation_attempts") = true
  · rw [if_pos hg]
    have hb := h hg
    have hget : alistGet sc.1 "trust_remediation_attempts" =
        eget e "trust_remediation_attempts" := by
      rw [alistGet, hb]
      rfl
    rw [hget]
    have hnone : (eget e "trust_remediation_attempts").isNone = false := by
      rcases pyIsInt_cases hg with ⟨n, hv⟩ | ⟨b, hv⟩ <;> rw [hv] <;> rfl
    have hrefl : pyEqV (eget e "trust_remediation_attempts")
        (eget e "trust_remediation_attempts") = true := by
      rcases pyIsInt_cases hg with ⟨n, hv⟩ | ⟨b, hv⟩ <;> rw [hv] <;> simp [pyEqV]
    simp [hnone, hrefl]
  · rw [if_neg hg]

theorem pStale_silent (e : Event) (sc : SC)
    (h : (eget e "stale").isBool = true →
      alistGet? sc.1 "stale" = some (eget e "stale")) :
    (pStale e sc).2 = sc.2 := by
  by_cases hg : (eget e "stale").isBool = true
  · obtain ⟨b, hv⟩ := isBool_exists hg
    have hb : alistGet? sc.1 "stale" = some (.jbool b) := by
      have hx := h hg
      rw [hv] at hx
      exact hx
    unfold pStale
    rw [hv]
    dsimp only
    have hget : alistGet sc.1 "stale" = JVal.jbool b := by
      rw [alistGet, hb]
      rfl
    rw [hget]
    simp [JVal.isNone, pyEqV]
  · unfold pStale
    cases hv : eget e "stale" <;> try rfl
    rw [hv] at hg
    simp [JVal.isBool] at hg

theorem pEvalGov_silent (field label : String) (e : Event) (sc : SC)
    (h : (eget e field).isBool = true →
      alistGet? sc.1 field = some (eget e field)) :
    (pEvalGov field label e sc).2 = sc.2 := by
  by_cases hg : (eget e field).isBool = true
  · obtain ⟨b, hv⟩ := isBool_exists hg
    have hb : alistGet? sc.1 field = some (.jbool b) := by
      have hx := h hg
      rw [hv] at hx
      exact hx
    unfold pEvalGov
    rw [hv]
    dsimp only
    have hget : alistGet sc.1 field = JVal.jbool b := by
      rw [alistGet, hb]
      rfl
    rw [hget]
    simp [JVal.isNone, pyEqV]
  · unfold pEvalGov
    cases hv : eget e field <;> try rfl
    rw [hv] at hg
    simp [JVal.isBool] at hg

theorem pPkState_silent (pk : List (String × JVal)) (sc : SC)
    (h : (alistGet pk "state").isStr = true →
      alistGet? sc.1 "provider_key_state" = some (alistGet pk "state")) :
    (pPkState pk sc).2 = sc.2 := by
  by_cases hg : (alistGet pk "state").isStr = true
  · obtain ⟨b, hv⟩ := isStr_exists hg
    have hb : alistGet? sc.1 "provider_key_state" = some (.jstr b) := by
      have hx := h hg
      rw [hv] at hx
      exact hx
    unfold pPkState
    rw [hv]
    dsimp only
    have hget : alistGet sc.1 "provider_key_state" = JVal.jstr b := by
      rw [alistGet, hb]
      rfl
    rw [hget]
    simp [JVal.isNone, pyEqV]
  · unfold pPkState
    cases hv : alistGet pk "state" <;> try rfl
    rw [hv] at hg
    simp [JVal.isStr] at hg

theorem pPkVeto_silent (pk : List (String × JVal)) (sc : SC)
    (h : (alistGet pk "vetoed").isBool = true →
      alistGet? sc.1 "provider_key_vetoed" = some (alistGet pk "vetoed")) :
    (pPkVeto pk sc).2 = sc.2 := by
  by_cases hg : (alistGet pk "vetoed").isBool = true
  · obtain ⟨b, hv⟩ := isBool_exists hg
    have hb : alistGet? sc.1 "provider_key_vetoed" = some (.jbool b) := by
      have hx := h hg
      rw [hv] at hx
      exact hx
    unfold pPkVeto
    rw [hv]
    dsimp only
    have hget : alistGet sc.1 "provider_key_vetoed" = JVal.jbool b := by
      rw [alistGet, hb]
      rfl
    rw [hget]
    simp [JVal.isNone, pyEqV]
  · unfold pPkVeto
    cases hv : alistGet pk "vetoed" <;> try rfl
    rw [hv] at hg
    simp [JVal.isBool] at hg

theorem pInstance_silent (e : Event) (sc : SC)
    (h : (eget e "instance_id").isStr = true →
      alistGet? sc.1 "instance_id" = some (eget e "instance_id")) :
    (pInstance e sc).2 = sc.2 := by
  by_cases hg : (eget e "instance_id").isStr = true
  · obtain ⟨b, hv⟩ := isStr_exists hg
    have hb : alistGet? sc.1 "instance_id" = some (.jstr b) := by
      have hx := h hg
      rw [hv] at hx
      exact hx
    unfold pInstance
    rw [hv]
    dsimp only
    have hget : alistGet sc.1 "instance_id" = JVal.jstr b := by
      rw [alistGet, hb]
      rfl
    rw [hget]
    simp [JVal.isNone, pyEqV]
  · unfold pInstance
    cases hv : eget e "instance_id" <;> try rfl
    rw [hv] at hg
    simp [JVal.isStr] at hg

/-! ### Change-list passthrough lemmas for context-only blocks -/

theorem pCandidate_changes (e : Event) (sc : SC) :
    (pCandidate e sc).2 = sc.2 := by
  unfold pCandidate
  cases eget e "candidate_backend" <;> rfl

theorem pInstanceEarly_changes (e : Event) (sc : SC) :
    (pInstanceEarly e sc).2 = sc.2 := by
  unfold pInstanceEarly
  cases eget e "instance_id" <;> rfl

theorem pTrustEventId_changes (e : Event) (sc : SC) :
    (pTrustEventId e sc).2 = sc.2 := by
  unfold pTrustEventId
  dsimp only
  split <;> rfl

theorem pPrevLifecycle_changes (e : Event) (sc : SC) :
    (pPrevLifecycle e sc).2 = sc.2 := by
  unfold pPrevLifecycle
  cases eget e "trust_previous_lifecycle_state" <;> rfl

theorem pFreshness_changes (e : Event) (sc : SC) :
    (pFreshness e sc).2 = sc.2 := by
  unfold pFreshness
  cases pyOr (eget e "freshness_expires_at") (eget e "trust_freshness_deadline") <;>
    rfl

theorem pProvenanceRef_changes (e : Event) (sc : SC) :
    (pProvenanceRef e sc).2 = sc.2 := by
  unfold pProvenanceRef
  cases eget e "trust_provenance_ref" <;> rfl

theorem pProvenance_changes (e : Event) (sc : SC) :
    (pProvenance e sc).2 = sc.2 := by
  unfold pProvenance
  dsimp only
  split <;> rfl

theorem pPkRotation_changes (pk : List (String × JVal)) (sc : SC) :
    (pPkRotation pk sc).2 = sc.2 := by
  unfold pPkRotation
  cases alistGet pk "rotation_due_at" <;> rfl

theorem pPkNotes_changes (pk : List (String × JVal)) (sc : SC) :
    (pPkNotes pk sc).2 = sc.2 := by
  unfold pPkNotes
  cases alistGet pk "notes" <;> rfl

theorem pPkProviderId_changes (pk : List (String × JVal)) (sc : SC) :
    (pPkProviderId pk sc).2 = sc.2 := by
  unfold pPkProviderId
  cases alistGet pk "provider_id" <;> rfl

theorem pFallback_skip (e : Event) (sc : SC)
    (h : (eget e "fallback_backend").isStr = false) : pFallback e sc = sc := by
  unfold pFallback
  cases hv : eget e "fallback_backend" <;> try rfl
  rw [hv] at h
  simp [JVal.isStr] at h

theorem pTrustEvent_skip (e : Event) (sc : SC)
    (h : (eget e "trust_event").isDict = false) : pTrustEvent e sc = sc := by
  unfold pTrustEvent
  cases hv : eget e "trust_event" <;> try rfl
  rw [hv] at h
  simp [JVal.isDict] at h

theorem pProviderKey_silent (e : Event) (sc : SC)
    (h : ∀ pk, eget e "provider_key_posture" = .jdict pk →
      ((alistGet pk "state").isStr = true →
        alistGet? sc.1 "provider_key_state" = some (alistGet pk "state")) ∧
      ((alistGet pk "vetoed").isBool = true →
        alistGet? sc.1 "provider_key_vetoed" = some (alistGet pk "vetoed"))) :
    (pProviderKey e sc).2 = sc.2 := by
  unfold pProviderKey
  cases hv : eget e "provider_key_posture" <;> try rfl
  rename_i pk
  obtain ⟨hs, hvt⟩ := h pk hv
  have hvt' : (alistGet pk "vetoed").isBool = true →
      alistGet? (pPkState pk sc).1 "provider_key_vetoed" =
        some (alistGet pk "vetoed") := by
    intro hb
    rw [pPkState_frame _ _ _ (by decide)]
    exact hvt hb
  rw [pPkProviderId_changes, pPkNotes_changes, pPkRotation_changes,
    pPkVeto_silent pk _ hvt', pPkState_silent pk sc hs]

/-- After one pass of the field blocks the posture dict reflects every
diffed field the event carries. -/
theorem policyApplyFields_converged (e : Event) (c : Bool) (s : Summary) :
    policyConverged e (policyApplyFields e c s).1 := by
  unfold policyConverged policyApplyFields
  refine ⟨?_, ?_, ?_, ?_, ?_, ?_, ?_, ?_, ?_⟩
  · intro hb
    rw [pInstance_frame e _ "backend" (by decide),
      pProviderKey_frame e _ "backend" (by decide) (by decide) (by decide)
        (by decide) (by decide),
      pEvalGov_frame "governance_required" "governance" e _ "backend" (by decide),
      pEvalGov_frame "evaluation_required" "evaluation" e _ "backend" (by decide),
      pStale_frame e _ "backend" (by decide),
      pProvenance_frame e _ "backend" (by decide),
      pProvenanceRef_frame e _ "backend" (by decide),
      pFreshness_frame e _ "backend" (by decide),
      pRemAttempts_frame e _ "backend" (by decide),
      pPrevLifecycle_frame e _ "backend" (by decide),
      pLifecycle_frame e _ "backend" (by decide),
      pTrustEventId_frame e _ "backend" (by decide),
      pTrustEvent_frame e _ "backend" (by decide),
      pAttestation_frame e c _ "backend" (by decide),
      pInstanceEarly_frame e _ "backend" (by decide),
      pFallback_frame e _ "backend" (by decide),
      pCandidate_frame e _ "backend" (by decide)]
    exact pBackend_establish e _ hb
  · intro ha
    rw [pInstance_frame e _ "attestation_status" (by decide),
      pProviderKey_frame e _ "attestation_status" (by decide) (by decide)
        (by decide) (by decide) (by decide),
      pEvalGov_frame "governance_required" "governance" e _ "attestation_status"
        (by decide),
      pEvalGov_frame "evaluation_required" "evaluation" e _ "attestation_status"
        (by decide),
      pStale_frame e _ "attestation_status" (by decide),
      pProvenance_frame e _ "attestation_status" (by decide),
      pProvenanceRef_frame e _ "attestation_status" (by decide),
      pFreshness_frame e _ "attestation_status" (by decide),
      pRemAttempts_frame e _ "attestation_status" (by decide),
      pPrevLifecycle_frame e _ "attestation_status" (by decide),
      pLifecycle_frame e _ "attestation_status" (by decide),
      pTrustEventId_frame e _ "attestation_status" (by decide),
      pTrustEvent_frame e _ "attestation_status" (by decide)]
    exact pAttestation_establish e c _ ha
  · intro hl
    rw [pInstance_frame e _ "trust_lifecycle_state" (by decide),
      pProviderKey_frame e _ "trust_lifecycle_state" (by decide) (by decide)
        (by decide) (by decide) (by decide),
      pEvalGov_frame "governance_required" "governance" e _
        "trust_lifecycle_state" (by decide),
      pEvalGov_frame "evaluation_required" "evaluation" e _
        "trust_lifecycle_state" (by decide),
      pStale_frame e _ "trust_lifecycle_state" (by decide),
      pProvenance_frame e _ "trust_lifecycle_state" (by decide),
      pProvenanceRef_frame e _ "trust_lifecycle_state" (by decide),
      pFreshness_frame e _ "trust_lifecycle_state" (by decide),
      pRemAttempts_frame e _ "trust_lifecycle_state" (by decide),
      pPrevLifecycle_frame e _ "trust_lifecycle_state" (by decide)]
    exact pLifecycle_establish e _ hl
  · intro hr
    rw [pInstance_frame e _ "trust_remediation_attempts" (by decide),
      pProviderKey_frame e _ "trust_remediation_attempts" (by decide)
        (by decide) (by decide) (by decide) (by decide),
      pEvalGov_frame "governance_required" "governance" e _
        "trust_remediation_attempts" (by decide),
      pEvalGov_frame "evaluation_required" "evaluation" e _
        "trust_remediation_attempts" (by decide),
      pStale_frame e _ "trust_remediation_attempts" (by decide),
      pProvenance_frame e _ "trust_remediation_attempts" (by decide),
      pProvenanceRef_frame e _ "trust_remediation_attempts" (by decide),
      pFreshness_frame e _ "trust_remediation_attempts" (by decide)]
    exact pRemAttempts_establish e _ hr
  · intro hs
    rw [pInstance_frame e _ "stale" (by decide),
      pProviderKey_frame e _ "stale" (by decide) (by decide) (by decide)
        (by decide) (by decide),
      pEvalGov_frame "governance_required" "governance" e _ "stale" (by decide),
      pEvalGov_frame "evaluation_required" "evaluation" e _ "stale" (by decide)]
    exact pStale_establish e _ hs
  · intro he
    rw [pInstance_frame e _ "evaluation_required" (by decide),
      pProviderKey_frame e _ "evaluation_required" (by decide) (by decide)
        (by decide) (by decide) (by decide),
      pEvalGov_frame "governance_required" "governance" e _
        "evaluation_required" (by decide)]
    exact pEvalGov_establish "evaluation_required" "evaluation" e _ he
  · intro hgv
    rw [pInstance_frame e _ "governance_required" (by decide),
      pProviderKey_frame e _ "governance_required" (by decide) (by decide)
        (by decide) (by decide) (by decide)]
    exact pEvalGov_establish "governance_required" "governance" e _ hgv
  · intro pk hpk
    constructor
    · intro hs
      rw [pInstance_frame e _ "provider_key_state" (by decide)]
      exact (pProviderKey_establish e _ pk hpk).1 hs
    · intro hv
      rw [pInstance_frame e _ "provider_key_vetoed" (by decide)]
      exact (pProviderKey_establish e _ pk hpk).2 hv
  · intro hi
    exact pInstance_establish e _ hi

/-- On a converged posture dict a re-applied event generates no change
records, provided it carries neither of the always-reported fields
(`fallback_backend` string, `trust_event` object). -/
theorem policyApplyFields_silent (e : Event) (c : Bool) (s : Summary)
    (hcv : policyConverged e s)
    (hfb : (eget e "fallback_backend").isStr = false)
    (hte : (eget e "trust_event").isDict = false) :
    (policyApplyFields e c s).2 = [] := by
  obtain ⟨h1, h2, h3, h4, h5, h6, h7, h8, h9⟩ := hcv
  unfold policyApplyFields
  set t1 := pBackend e (s, ([] : List String)) with ht1
  set t2 := pCandidate e t1 with ht2
  set t3 := pFallback e t2 with ht3
  set t4 := pInstanceEarly e t3 with ht4
  set t5 := pAttestation e c t4 with ht5
  set t6 := pTrustEvent e t5 with ht6
  set t7 := pTrustEventId e t6 with ht7
  set t8 := pLifecycle e t7 with ht8
  set t9 := pPrevLifecycle e t8 with ht9
  set t10 := pRemAttempts e t9 with ht10
  set t11 := pFreshness e t10 with ht11
  set t12 := pProvenanceRef e t11 with ht12
  set t13 := pProvenance e t12 with ht13
  set t14 := pStale e t13 with ht14
  set t15 := pEvalGov "evaluation_required" "evaluation" e t14 with ht15
  set t16 := pEvalGov "governance_required" "governance" e t15 with ht16
  set t17 := pProviderKey e t16 with ht17
  have hc1 : t1.2 = [] := by
    rw [ht1]
    exact pBackend_silent e _ h1
  have hc2 : t2.2 = t1.2 := by
    rw [ht2]
    exact pCandidate_changes e t1
  have hc3 : t3 = t2 := by
    rw [ht3]
    exact pFallback_skip e t2 hfb
  have hc4 : t4.2 = t3.2 := by
    rw [ht4]
    exact pInstanceEarly_changes e t3
  have ga : (eget e "attestation_status").isStr = true →
      alistGet? t4.1 "attestation_status" = some (eget e "attestation_status") := by
    intro hg
    rw [ht4, pInstanceEarly_frame e _ "attestation_status" (by decide), hc3,
      ht2, pCandidate_frame e _ "attestation_status" (by decide),
      ht1, pBackend_frame e _ "attestation_status" (by decide)]
    exact h2 hg
  have hc5 : t5.2 = t4.2 := by
    rw [ht5]
    exact pAttestation_silent e c t4 ga
  have hc6 : t6 = t5 := by
    rw [ht6]
    exact pTrustEvent_skip e t5 hte
  have hc7 : t7.2 = t6.2 := by
    rw [ht7]
    exact pTrustEventId_changes e t6
  have gl : (eget e "trust_lifecycle_state").isStr = true →
      alistGet? t7.1 "trust_lifecycle_state" =
        some (eget e "trust_lifecycle_state") := by
    intro hg
    rw [ht7, pTrustEventId_frame e _ "trust_lifecycle_state" (by decide), hc6,
      ht5, pAttestation_frame e c _ "trust_lifecycle_state" (by decide),
      ht4, pInstanceEarly_frame e _ "trust_lifecycle_state" (by decide), hc3,
      ht2, pCandidate_frame e _ "trust_lifecycle_state" (by decide),
      ht1, pBackend_frame e _ "trust_lifecycle_state" (by decide)]
    exact h3 hg
  have hc8 : t8.2 = t7.2 := by
    rw [ht8]
    exact pLifecycle_silent e t7 gl
  have hc9 : t9.2 = t8.2 := by
    rw [ht9]
    exact pPrevLifecycle_changes e t8
  have gr : pyIsInt (eget e "trust_remediation_attempts") = true →
      alistGet? t9.1 "trust_remediation_attempts" =
        some (eget e "trust_remediation_attempts") := by
    intro hg
    rw [ht9, pPrevLifecycle_frame e _ "trust_remediation_attempts" (by decide),
      ht8, pLifecycle_frame e _ "trust_remediation_attempts" (by decide),
      ht7, pTrustEventId_frame e _ "trust_remediation_attempts" (by decide), hc6,
      ht5, pAttestation_frame e c _ "trust_remediation_attempts" (by decide),
      ht4, pInstanceEarly_frame e _ "trust_remediation_attempts" (by decide), hc3,
      ht2, pCandidate_frame e _ "trust_remediation_attempts" (by decide),
      ht1, pBackend_frame e _ "trust_remediation_attempts" (by decide)]
    exact h4 hg
  have hc10 : t10.2 = t9.2 := by
    rw [ht10]
    exact pRemAttempts_silent e t9 gr
  have hc11 : t11.2 = t10.2 := by
    rw [ht11]
    exact pFreshness_changes e t10
  have hc12 : t12.2 = t11.2 := by
    rw [ht12]
    exact pProvenanceRef_changes e t11
  have hc13 : t13.2 = t12.2 := by
    rw [ht13]
    exact pProvenance_changes e t12
  have gs : (eget e "stale").isBool = true →
      alistGet? t13.1 "stale" = some (eget e "stale") := by
    intro hg
    rw [ht13, pProvenance_frame e _ "stale" (by decide),
      ht12, pProvenanceRef_frame e _ "stale" (by decide),
      ht11, pFreshness_frame e _ "stale" (by decide),
      ht10, pRemAttempts_frame e _ "stale" (by decide),
      ht9, pPrevLifecycle_frame e _ "stale" (by decide),
      ht8, pLifecycle_frame e _ "stale" (by decide),
      ht7, pTrustEventId_frame e _ "stale" (by decide), hc6,
      ht5, pAttestation_frame e c _ "stale" (by decide),
      ht4, pInstanceEarly_frame e _ "stale" (by decide), hc3,
      ht2, pCandidate_frame e _ "stale" (by decide),
      ht1, pBackend_frame e _ "stale" (by decide)]
    exact h5 hg
  have hc14 : t14.2 = t13.2 := by
    rw [ht14]
    exact pStale_silent e t13 gs
  have ge : (eget e "evaluation_required").isBool = true →
      alistGet? t14.1 "evaluation_required" =
        some (eget e "evaluation_required") := by
    intro hg
    rw [ht14, pStale_frame e _ "evaluation_required" (by decide),
      ht13, pProvenance_frame e _ "evaluation_required" (by decide),
      ht12, pProvenanceRef_frame e _ "evaluation_required" (by decide),
      ht11, pFreshness_frame e _ "evaluation_required" (by decide),
      ht10, pRemAttempts_frame e _ "evaluation_required" (by decide),
      ht9, pPrevLifecycle_frame e _ "evaluation_required" (by decide),
      ht8, pLifecycle_frame e _ "evaluation_required" (by decide),
      ht7, pTrustEventId_frame e _ "evaluation_required" (by decide), hc6,
      ht5, pAttestation_frame e c _ "evaluation_required" (by decide),
      ht4, pInstanceEarly_frame e _ "evaluation_required" (by decide), hc3,
      ht2, pCandidate_frame e _ "evaluation_required" (by decide),
      ht1, pBackend_frame e _ "evaluation_required" (by decide)]
    exact h6 hg
  have hc15 : t15.2 = t14.2 := by
    rw [ht15]
    exact pEvalGov_silent "evaluation_required" "evaluation" e t14 ge
  have gg : (eget e "governance_required").isBool = true →
      alistGet? t15.1 "governance_required" =
        some (eget e "governance_required") := by
    intro hg
    rw [ht15,
      pEvalGov_frame "evaluation_required" "evaluation" e _
        "governance_required" (by decide),
      ht14, pStale_frame e _ "governance_required" (by decide),
      ht13, pProvenance_frame e _ "governance_required" (by decide),
      ht12, pProvenanceRef_frame e _ "governance_required" (by decide),
      ht11, pFreshness_frame e _ "governance_required" (by decide),
      ht10, pRemAttempts_frame e _ "governance_required" (by decide),
      ht9, pPrevLifecycle_frame e _ "governance_required" (by decide),
      ht8, pLifecycle_frame e _ "governance_required" (by decide),
      ht7, pTrustEventId_frame e _ "governance_required" (by decide), hc6,
      ht5, pAttestation_frame e c _ "governance_required" (by decide),
      ht4, pInstanceEarly_frame e _ "governance_required" (by decide), hc3,
      ht2, pCandidate_frame e _ "governance_required" (by decide),
      ht1, pBackend_frame e _ "governance_required" (by decide)]
    exact h7 hg
  have hc16 : t16.2 = t15.2 := by
    rw [ht16]
    exact pEvalGov_silent "governance_required" "governance" e t15 gg
  have gpk : ∀ pk, eget e "provider_key_posture" = .jdict pk →
      ((alistGet pk "state").isStr = true →
        alistGet? t16.1 "provider_key_state" = some (alistGet pk "state")) ∧
      ((alistGet pk "vetoed").isBool = true →
        alistGet? t16.1 "provider_key_vetoed" = some (alistGet pk "vetoed")) := by
    intro pk hpk
    constructor
    · intro hg
      rw [ht16,
        pEvalGov_frame "governance_required" "governance" e _
          "provider_key_state" (by decide),
        ht15,
        pEvalGov_frame "evaluation_required" "evaluation" e _
          "provider_key_state" (by decide),
        ht14, pStale_frame e _ "provider_key_state" (by decide),
        ht13, pProvenance_frame e _ "provider_key_state" (by decide),
        ht12, pProvenanceRef_frame e _ "provider_key_state" (by decide),
        ht11, pFreshness_frame e _ "provider_key_state" (by decide),
        ht10, pRemAttempts_frame e _ "provider_key_state" (by decide),
        ht9, pPrevLifecycle_frame e _ "provider_key_state" (by decide),
        ht8, pLifecycle_frame e _ "provider_key_state" (by decide),
        ht7, pTrustEventId_frame e _ "provider_key_state" (by decide), hc6,
        ht5, pAttestation_frame e c _ "provider_key_state" (by decide),
        ht4, pInstanceEarly_frame e _ "provider_key_state" (by decide), hc3,
        ht2, pCandidate_frame e _ "provider_key_state" (by decide),
        ht1, pBackend_frame e _ "provider_key_state" (by decide)]
      exact (h8 pk hpk).1 hg
    · intro hg
      rw [ht16,
        pEvalGov_frame "governance_required" "governance" e _
          "provider_key_vetoed" (by decide),
        ht15,
        pEvalGov_frame "evaluation_required" "evaluation" e _
          "provider_key_vetoed" (by decide),
        ht14, pStale_frame e _ "provider_key_vetoed" (by decide),
        ht13, pProvenance_frame e _ "provider_key_vetoed" (by decide),
        ht12, pProvenanceRef_frame e _ "provider_key_vetoed" (by decide),
        ht11, pFreshness_frame e _ "provider_key_vetoed" (by decide),
        ht10, pRemAttempts_frame e _ "provider_key_vetoed" (by decide),
        ht9, pPrevLifecycle_frame e _ "provider_key_vetoed" (by decide),
        ht8, pLifecycle_frame e _ "provider_key_vetoed" (by decide),
        ht7, pTrustEventId_frame e _ "provider_key_vetoed" (by decide), hc6,
        ht5, pAttestation_frame e c _ "provider_key_vetoed" (by decide),
        ht4, pInstanceEarly_frame e _ "provider_key_vetoed" (by decide), hc3,
        ht2, pCandidate_frame e _ "provider_key_vetoed" (by decide),
        ht1, pBackend_frame e _ "provider_key_vetoed" (by decide)]
      exact (h8 pk hpk).2 hg
  have hc17 : t17.2 = t16.2 := by
    rw [ht17]
    exact pProviderKey_silent e t16 gpk
  have gi : (eget e "instance_id").isStr = true →
      alistGet? t17.1 "instance_id" = some (eget e "instance_id") := by
    intro hg
    rw [ht17,
      pProviderKey_frame e _ "instance_id" (by decide) (by decide) (by decide)
        (by decide) (by decide),
      ht16,
      pEvalGov_frame "governance_required" "governance" e _ "instance_id"
        (by decide),
      ht15,
      pEvalGov_frame "evaluation_required" "evaluation" e _ "instance_id"
        (by decide),
      ht14, pStale_frame e _ "instance_id" (by decide),
      ht13, pProvenance_frame e _ "instance_id" (by decide),
      ht12, pProvenanceRef_frame e _ "instance_id" (by decide),
      ht11, pFreshness_frame e _ "instance_id" (by decide),
      ht10, pRemAttempts_frame e _ "instance_id" (by decide),
      ht9, pPrevLifecycle_frame e _ "instance_id" (by decide),
      ht8, pLifecycle_frame e _ "instance_id" (by decide),
      ht7, pTrustEventId_frame e _ "instance_id" (by decide), hc6,
      ht5, pAttestation_frame e c _ "instance_id" (by decide),
      ht4, pInstanceEarly_frame e _ "instance_id" (by decide), hc3,
      ht2, pCandidate_frame e _ "instance_id" (by decide),
      ht1, pBackend_frame e _ "instance_id" (by decide)]
    exact h9 hg
  rw [pInstance_silent e t17 gi, hc17, hc16, hc15, hc14, hc13, hc12, hc11,
    hc10, hc9, hc8, hc7, hc6, hc5, hc4, hc3, hc2, hc1]

/-- C3 (counterexample): the claim fails in both directions.  A policy
event carrying `fallback_backend` renders on the second application too
(the field is reported unconditionally), and re-feeding an event to an
already-converged state renders nothing even on the first application of
the pair. -/
theorem refeed_idempotence_counterexample :
    (renderPolicyEvent fallbackEvent [] false).1 =
      some "[] server 4 UNKNOWN fallback -> edge" ∧
    (renderPolicyEvent fallbackEvent
      (renderPolicyEvent fallbackEvent [] false).2 false).1 =
      some "[] server 4 UNKNOWN fallback -> edge" ∧
    (renderPolicyEvent scenarioEvent1
      (renderPolicyEvent scenarioEvent1 [] false).2 false).1 = none := by
  refine ⟨rfl, rfl, rfl⟩

/-- C3 (amended): immediately re-applying a policy event after an
application of it produces no output, provided the event carries no
unconditionally-reported field (`fallback_backend` string, `trust_event`
object) and no notable notes; events carrying those fields re-render on
every application, and the first application renders only when it yields
change records or notable notes. -/
theorem refeed_second_application_silent :
    ∀ (e : Event) (st : PolicyState) (c : Bool),
      (eget e "fallback_backend").isStr = false →
      (eget e "trust_event").isDict = false →
      filterSignalNotes (eget e "notes") = [] →
      (renderPolicyEvent e (renderPolicyEvent e st c).2 c).1 = none := by
  intro e st c hfb hte hn
  by_cases h : pyIsInt (eget e "server_id") = true
  · have hstate : (renderPolicyEvent e st c).2 =
        pstateSet st (pyIntVal (eget e "server_id"))
          (policyApplyFields e c
            ((pstateGet? st (pyIntVal (eget e "server_id"))).getD [])).1 := by
      simp only [renderPolicyEvent, h, Bool.not_true, Bool.false_eq_true,
        if_false]
      split <;> rfl
    have hconv := policyApplyFields_converged e c
      ((pstateGet? st (pyIntVal (eget e "server_id"))).getD [])
    have hsil := policyApplyFields_silent e c _ hconv hfb hte
    rw [hstate]
    simp only [renderPolicyEvent, h, Bool.not_true, Bool.false_eq_true,
      if_false, pstateGet?_set_self, Option.getD_some]
    simp [hsil, hn]
  · have h' : pyIsInt (eget e "server_id") = false := by
      simpa using h
    simp [renderPolicyEvent, h']

/-- Witness for C3: re-feeding the scenario event is silent the second
time. -/
theorem refeed_second_application_silent_w :
    (renderPolicyEvent scenarioEvent1
      (renderPolicyEvent scenarioEvent1 [] false).2 false).1 = none :=
  refeed_second_application_silent scenarioEvent1 [] false (by decide)
    (by decide) (by decide)

end MCPHost
